import Mathlib

/-!
Shallow embedding of the steganography core of the stealth-stream app
(`lib/steganography`: Text/Image/Audio/Video codecs, the seeded PRNG and
the partial Fisher-Yates index generator, bit framing and 3x redundancy).

Conventions of the embedding:
* JavaScript strings are `List Nat` of UTF-16 char codes; byte buffers
  (`Uint8Array`, `Uint8ClampedArray`, `Int16Array` bit patterns) are
  `List Nat`; bit strings (strings of the characters 0 and 1) are
  `List Bool`.
* 32-bit unsigned arithmetic (`>>> 0`) is `Nat` arithmetic `% 2^32`.
  `Math.floor(x * 0.8)`, `Math.floor(x * 0.3)` and `Math.ceil(x * 0.3)`
  are the exact `4*x/5`, `3*x/10` and `(3*x+9)/10` on `Nat` (the float
  round-off of 0.8 and 0.3 is too small to move a floor/ceil at the
  magnitudes the code handles).
* The cipher adapter (CryptoJS AES) and the password hash (SHA-256) are
  external collaborators: codecs are parametrized over `EncryptFn`,
  `DecryptFn` (where `none` models a thrown decryption error) and
  `HashFn`.
* Thrown errors are `Except StegoErr` / pairs with an `Option StegoErr`
  component (for in-place carrier mutation); `null` results are `none`.
-/

namespace StealthStream

set_option maxRecDepth 40000

/-- Error taxonomy: the only error the codec core itself raises is a
capacity failure (`throw new Error('Message too large ...')` and the
index generator's `throw new Error('needed > length')`). -/
inductive StegoErr where
  | capacityExceeded
deriving DecidableEq, Repr

/-- Binary digits, most significant first, with explicit fuel so the
recursion is structural (the fuel `n + 1` of `natBits` always
suffices, since the argument at least halves each step). -/
def natBitsGo : Nat → Nat → List Bool
  | 0, _ => []
  | fuel + 1, n =>
      if n < 2 then [decide (n = 1)]
      else natBitsGo fuel (n / 2) ++ [decide (n % 2 = 1)]

/-- Binary digits of `n`, most significant first, as produced by
JavaScript `n.toString(2)` (so `natBits 0 = [false]`). -/
def natBits (n : Nat) : List Bool :=
  natBitsGo (n + 1) n

/-- Left-pad a bit string with `false` up to width `w`, as in
JavaScript `s.padStart(w, '0')` (a longer string is unchanged). -/
def padStartBits (w : Nat) (l : List Bool) : List Bool :=
  List.replicate (w - l.length) false ++ l

/-- Bits of one character / byte: `c.charCodeAt(0).toString(2).padStart(8, '0')`. -/
def charBits (c : Nat) : List Bool :=
  padStartBits 8 (natBits c)

/-- The source's `bytesToBitString`: concatenate the 8-bit big-endian
form of every byte. -/
def bytesToBits (bs : List Nat) : List Bool :=
  bs.flatMap charBits

/-- Value of a bit string read as a big-endian binary numeral,
as in `parseInt(bits, 2)` for a non-empty all-0/1 string. -/
def bitsToNat (l : List Bool) : Nat :=
  l.foldl (fun a b => 2 * a + b.toNat) 0

/-- The source's `bitStringToBytes`: take `len/8` bytes of 8 bits each,
dropping an incomplete trailing group. -/
def bitStringToBytes (bits : List Bool) : List Nat :=
  (List.range (bits.length / 8)).map (fun i => bitsToNat ((bits.drop (i * 8)).take 8))

/-- The 16-bit end marker `'1111111111111110'` used by the
marker-terminated framing. -/
def endMarker : List Bool :=
  List.replicate 15 true ++ [false]

/-- Triplicate every bit in order: `bits.split('').flatMap(bit => [bit, bit, bit])`. -/
def tripleBits (l : List Bool) : List Bool :=
  l.flatMap (fun b => [b, b, b])

/-- Majority-vote collapse of a redundant bit string: per consecutive
triplet emit 1 iff at least two bits are 1; an incomplete trailing
group is dropped (`if (triplet.length < 3) break`). -/
def decodeRedundantBits : List Bool → List Bool
  | x :: y :: z :: rest =>
      decide (2 ≤ x.toNat + y.toNat + z.toNat) :: decodeRedundantBits rest
  | _ => []

/-- Check whether `pat` occurs at the head of `l`. -/
def matchesAt : List Bool → List Bool → Bool
  | [], _ => true
  | _ :: _, [] => false
  | p :: ps, x :: xs => (p == x) && matchesAt ps xs

/-- First occurrence of `pat` inside `l`, as in `l.indexOf(pat)`
(`none` models the result -1). -/
def findPattern (pat : List Bool) : List Bool → Option Nat
  | [] => if matchesAt pat [] then some 0 else none
  | x :: xs =>
      if matchesAt pat (x :: xs) then some 0
      else (findPattern pat xs).map (· + 1)

/-- UTF-8 bytes of one char code, as produced by `TextEncoder`
(surrogate pairing is not modelled; every use in the claims is ASCII,
where the encoding is the identity). -/
def utf8Char (c : Nat) : List Nat :=
  if c < 128 then [c]
  else if c < 2048 then [192 + c / 64, 128 + c % 64]
  else [224 + c / 4096, 128 + c / 64 % 64, 128 + c % 64]

/-- Model of `new TextEncoder().encode(s)`. -/
def utf8Encode (s : List Nat) : List Nat :=
  s.flatMap utf8Char

/-- Model of `new TextDecoder().decode(bytes)`: exact on ASCII bytes;
bytes above 127 (multi-byte sequences) are abstracted to U+FFFD. Every
payload the claims evaluate is ASCII. -/
def utf8Decode : List Nat → List Nat
  | [] => []
  | b :: rest => (if b < 128 then b else 0xFFFD) :: utf8Decode rest

/-- Decimal digit char codes with explicit fuel (the fuel `n + 1` of
`natDecChars` always suffices). -/
def natDecCharsGo : Nat → Nat → List Nat
  | 0, _ => []
  | fuel + 1, n =>
      if n < 10 then [48 + n]
      else natDecCharsGo fuel (n / 10) ++ [48 + n % 10]

/-- Decimal digit char codes of `n`, as in JavaScript number-to-string
coercion (`'' + n`). -/
def natDecChars (n : Nat) : List Nat :=
  natDecCharsGo (n + 1) n

/-- 2^32, the modulus of `>>> 0`. -/
def U32 : Nat := 4294967296

/-- Seed hashing of `seededPRNG`: fold
`state = (state * 31 + seed.charCodeAt(i)) >>> 0` over the seed string,
starting from 0. -/
def seedState (seed : List Nat) : Nat :=
  seed.foldl (fun st c => (st * 31 + c) % U32) 0

/-- One LCG step of the returned closure:
`state = (state * 1664525 + 1013904223) >>> 0`. -/
def prngStep (st : Nat) : Nat :=
  (st * 1664525 + 1013904223) % U32

/-- The value `Math.floor((state / 2^32) * n)` for a 32-bit state:
exactly `state * n / 2^32` on `Nat`. -/
def prngFloor (st n : Nat) : Nat :=
  st * n / U32

/-- Swap of the values at positions `i` and `j` of an array modelled as
a position-to-value map (the `tmp` three-assignment swap of
`generateIndicesPRNG`). -/
def fisherSwap (f : Nat → Nat) (i j : Nat) : Nat → Nat :=
  fun p => if p = i then f j else if p = j then f i else f p

/-- Position permutation underlying `fisherSwap`. -/
def swapIdx (i j : Nat) : Nat → Nat :=
  fun p => if p = i then j else if p = j then i else p

/-- The partial Fisher-Yates loop of `generateIndicesPRNG`: the first
argument counts the remaining iterations of
`j = Math.floor(prng() * (i + 1)); swap arr[i] arr[j]`, with `i`
descending from its initial value and the array modelled as the
position-to-value map `f`. -/
def shuffleGo : Nat → Nat → (Nat → Nat) → Nat → (Nat → Nat)
  | 0, _st, f, _i => f
  | k + 1, st, f, i =>
      shuffleGo k (prngStep st) (fisherSwap f i (prngFloor (prngStep st) (i + 1))) (i - 1)

/-- The last `needed` entries (positions `len - needed` to `len - 1`) of
the identity array of size `len` after the partial shuffle — the value
`Array.from(arr.slice(length - needed))`. -/
def shuffledSlice (st len needed : Nat) : List Nat :=
  (List.range' (len - needed) needed).map (shuffleGo needed st id (len - 1))

/-- The source's `generateIndicesPRNG(prng, length, needed)`: throws
when `needed > length`, otherwise returns `needed` distinct indices. -/
def generateIndicesPRNG (st len needed : Nat) : Except StegoErr (List Nat) :=
  if needed > len then .error .capacityExceeded
  else .ok (shuffledSlice st len needed)

/-- Cipher adapter boundary, `CryptoJS.AES.encrypt(m, p).toString()`:
an external collaborator producing a ciphertext string. -/
def EncryptFn : Type := List Nat → List Nat → List Nat

/-- Cipher adapter boundary,
`CryptoJS.AES.decrypt(c, p).toString(CryptoJS.enc.Utf8)`: `none` models
a thrown decryption error. -/
def DecryptFn : Type := List Nat → List Nat → Option (List Nat)

/-- Password hash boundary, `CryptoJS.SHA256(p).toString()`. -/
def HashFn : Type := List Nat → List Nat

/-- The shared prologue of every `encode`:
`password ? CryptoJS.AES.encrypt(secretMessage, password).toString() : secretMessage`. -/
def msgToEncode (encF : EncryptFn) (msg : List Nat) : Option (List Nat) → List Nat
  | some p => encF msg p
  | none => msg

/-- Char codes of the fixed seed string `'default-seed'`. -/
def defaultSeedChars : List Nat :=
  [100, 101, 102, 97, 117, 108, 116, 45, 115, 101, 101, 100]

/-- Seed derivation shared by audio and video:
`password ? CryptoJS.SHA256(password).toString() : 'default-seed'`. -/
def seedOf (hashF : HashFn) : Option (List Nat) → List Nat
  | some p => hashF p
  | none => defaultSeedChars

/-- The common epilogue of every `decode`: return the decoded string, or
if a password was given decrypt it, a thrown decryption error becoming
`null` and an empty decryption result also becoming `null`
(`return decryptedMessage || null`). -/
def finishCipher (decF : DecryptFn) (pw : Option (List Nat)) (decoded : List Nat) :
    Option (List Nat) :=
  match pw with
  | none => some decoded
  | some p =>
      match decF decoded p with
      | none => none
      | some d => if d = [] then none else some d

/-! ### Text codec (zero-width characters) -/

/-- The zero-width marker for one 2-bit symbol
(00 -> U+200B, 01 -> U+200C, 10 -> U+200D, 11 -> U+FEFF). -/
def zwOf (b1 b2 : Bool) : Nat :=
  match b1, b2 with
  | false, false => 0x200B
  | false, true => 0x200C
  | true, false => 0x200D
  | true, true => 0xFEFF

/-- Membership in the marker alphabet, the regex `[​‌‍﻿]`. -/
def isZW (c : Nat) : Bool :=
  c == 0x200B || c == 0x200C || c == 0x200D || c == 0xFEFF

/-- The decode-side switch mapping a marker character back to its 2-bit
symbol (a non-marker appends nothing; decode only feeds it markers). -/
def pairOf (c : Nat) : List Bool :=
  if c = 0x200B then [false, false]
  else if c = 0x200C then [false, true]
  else if c = 0x200D then [true, false]
  else if c = 0xFEFF then [true, true]
  else []

/-- Bits recovered from a list of extracted marker characters. -/
def zwToBits (zw : List Nat) : List Bool :=
  zw.flatMap pairOf

/-- The markers an embedding of a bit string produces: one marker per
complete leading 2-bit pair. -/
def zwList : List Bool → List Nat
  | b1 :: b2 :: rest => zwOf b1 b2 :: zwList rest
  | _ => []

/-- The interleaving loop of `TextSteganography.encode`: while cover
characters and frame bits remain, copy one cover character and, if at
least two bits remain, append the marker of the next pair. -/
def textEmbedGo : List Nat → List Bool → List Nat
  | [], _ => []
  | _ :: _, [] => []
  | c :: cs, b1 :: b2 :: rest => c :: zwOf b1 b2 :: textEmbedGo cs rest
  | c :: cs, [b1] => c :: textEmbedGo cs [b1]

/-- Embedding plus the trailing
`result += coverText.slice(result.replace(/[zw]/g, '').length)`:
append the cover text left over after the characters already consumed
(counted as the non-marker characters of the interleaving). -/
def textEmbed (cover : List Nat) (bits : List Bool) : List Nat :=
  let inter := textEmbedGo cover bits
  inter ++ cover.drop ((inter.filter (fun c => !isZW c)).length)

/-- `TextSteganography.encode` (the final library version, which has no
capacity check): optionally encrypt, form the frame bits
(8 bits per char plus the end marker) and interleave. -/
def textEncode (encF : EncryptFn) (cover msg : List Nat) (pw : Option (List Nat)) :
    List Nat :=
  textEmbed cover ((msgToEncode encF msg pw).flatMap charBits ++ endMarker)

/-- The `TextSteganography.encode` variant that throws
`Cover text too short` when
`coverText.length < Math.ceil(binaryWithMarker.length / 2)`. -/
def textEncodeChecked (encF : EncryptFn) (cover msg : List Nat) (pw : Option (List Nat)) :
    Except StegoErr (List Nat) :=
  let bits := (msgToEncode encF msg pw).flatMap charBits ++ endMarker
  if cover.length < (bits.length + 1) / 2 then .error .capacityExceeded
  else .ok (textEmbed cover bits)

/-- The checked text encode together with the caller's carrier after the
call: a JavaScript string is immutable, so the cover is returned
unchanged unconditionally. -/
def textEncodeCheckedRun (encF : EncryptFn) (cover msg : List Nat)
    (pw : Option (List Nat)) : Except StegoErr (List Nat) × List Nat :=
  (textEncodeChecked encF cover msg pw, cover)

/-- `TextSteganography.decode`: extract the marker characters in order,
rebuild the bit string, locate the end marker, convert the preceding
bits to characters and run the cipher epilogue. -/
def textDecode (decF : DecryptFn) (stego : List Nat) (pw : Option (List Nat)) :
    Option (List Nat) :=
  let zw := stego.filter (fun c => isZW c)
  if zw = [] then none
  else
    match findPattern endMarker (zwToBits zw) with
    | none => none
    | some endIndex => finishCipher decF pw (bitStringToBytes ((zwToBits zw).take endIndex))

/-! ### Image codec (LSB of the red channel, sequential pixels) -/

/-- The embedding loop of `ImageSteganography.encode`: bit `i` into the
least-significant bit of `data[4 * i]` (the red channel of pixel `i`,
`data[pixelIndex] = (data[pixelIndex] & 0xFE) | bit`). -/
def embedRed (data : List Nat) (bits : List Bool) : List Nat :=
  bits.enum.foldl (fun d ib => d.set (4 * ib.1) (2 * (d.getD (4 * ib.1) 0 / 2) + ib.2.toNat)) data

/-- `ImageSteganography.encode` in state-passing form: the pair is the
thrown error (if any) and the caller's pixel buffer after the call. The
capacity check `binaryMessage.length > data.length / 4` happens before
the first in-place write, so the error branch leaves the buffer
untouched. -/
def imageEncodeRun (encF : EncryptFn) (data msg : List Nat) (pw : Option (List Nat)) :
    Option StegoErr × List Nat :=
  let bits := (msgToEncode encF msg pw).flatMap charBits ++ endMarker
  if bits.length > data.length / 4 then (some .capacityExceeded, data)
  else (none, embedRed data bits)

/-- JavaScript `s.endsWith(pat)` on bit strings. -/
def endsWithBits (l pat : List Bool) : Bool :=
  decide (pat.length ≤ l.length) && matchesAt pat (l.drop (l.length - pat.length))

/-- The extraction loop of `ImageSteganography.decode`: read the red
channel least-significant bit of pixel `i` (`data[4 * i] & 1`) for
`i < data.length / 4` (the fuel `ceil(data.length / 4)` is the exact
iteration count of the float-bounded loop), appending to the bit string
and breaking as soon as it ends with the end marker. -/
def imageExtractGo (data : List Nat) : Nat → Nat → List Bool → List Bool
  | 0, _i, acc => acc
  | fuel + 1, i, acc =>
      let acc1 := acc ++ [decide (data.getD (4 * i) 0 % 2 = 1)]
      if endsWithBits acc1 endMarker then acc1
      else imageExtractGo data fuel (i + 1) acc1

/-- `ImageSteganography.decode` after the canvas collaborator: extract
red-channel LSBs until the end marker appears in the accumulated
stream, locate the marker (`null` if absent), convert the preceding
bits to characters and run the cipher epilogue. -/
def imageDecode (decF : DecryptFn) (data : List Nat) (pw : Option (List Nat)) :
    Option (List Nat) :=
  let binary := imageExtractGo data ((data.length + 3) / 4) 0 []
  match findPattern endMarker binary with
  | none => none
  | some endIndex => finishCipher decF pw (bitStringToBytes (binary.take endIndex))

/-- The image decode entry point including its collaborator step
(`canvas.getContext('2d')` / `getImageData` may throw, modelled by
`none`): the surrounding `try { ... } catch { return null }` converts a
collaborator failure to null. -/
def imageDecodeFile (decF : DecryptFn) (collab : Option (List Nat))
    (pw : Option (List Nat)) : Option (List Nat) :=
  match collab with
  | none => none
  | some data => imageDecode decF data pw

/-! ### Shared length-prefixed frame machinery (audio and video) -/

/-- Char codes of the audio magic `'USTEGA1'`. -/
def headerUChars : List Nat := [85, 83, 84, 69, 71, 65, 49]

/-- Bit string of the audio magic. -/
def headerUBits : List Bool := bytesToBits headerUChars

/-- Char codes of the video magic `'VSTEGA1'`. -/
def headerVChars : List Nat := [86, 83, 84, 69, 71, 65, 49]

/-- Bit string of the video magic. -/
def headerVBits : List Bool := bytesToBits headerVChars

/-- Length-prefixed frame: magic bits, the 32-bit big-endian payload
byte count (`len.toString(2).padStart(32, '0')`), then the payload
bytes' bits. -/
def frameBits (header : List Bool) (msgBytes : List Nat) : List Bool :=
  header ++ padStartBits 32 (natBits msgBytes.length) ++ bytesToBits msgBytes

/-- The shared early-exit probe of the audio/video decode loops: on the
majority-collapsed stream, locate the magic; if the 32-bit length and
the full payload it announces are already present, return the payload
bytes, otherwise keep collecting. -/
def earlyExtract (header : List Bool) (stream : List Bool) : Option (List Nat) :=
  let decoded := decodeRedundantBits stream
  match findPattern header decoded with
  | none => none
  | some hi =>
      if hi + header.length + 32 ≤ decoded.length then
        let msgLen := bitsToNat ((decoded.drop (hi + header.length)).take 32)
        if hi + header.length + 32 + msgLen * 8 ≤ decoded.length then
          some (bitStringToBytes ((decoded.drop (hi + header.length + 32)).take (msgLen * 8)))
        else none
      else none

/-- The shared final decode attempt over everything collected: locate
the magic (else `null`), read the 32-bit length, return `null` when the
announced payload is truncated. When the collapsed stream ends at or
before the length field, `parseInt('', 2)` is `NaN`: `substr` with a
`NaN` length yields `''`, the truncation comparison against `NaN` is
false, and decoding proceeds with an empty payload. -/
def finalExtract (header : List Bool) (stream : List Bool) : Option (List Nat) :=
  let decodedAll := decodeRedundantBits stream
  match findPattern header decodedAll with
  | none => none
  | some hi =>
      let lenBits := (decodedAll.drop (hi + header.length)).take 32
      if lenBits = [] then some []
      else
        let msgLen := bitsToNat lenBits
        let messageBits := (decodedAll.drop (hi + header.length + 32)).take (msgLen * 8)
        if messageBits.length < msgLen * 8 then none
        else some (bitStringToBytes messageBits)

/-! ### Audio codec (LSB of PRNG-selected PCM samples, 3x redundancy) -/

/-- Write bit `i` into the least-significant bit of the sample at
position `indices[i]`
(`modifiedSamples[sampleIndex] = (modifiedSamples[sampleIndex] & 0xFFFE) | bit`,
on the 16-bit two's-complement pattern). -/
def embedLSB (samples : List Nat) (indices : List Nat) (bits : List Bool) : List Nat :=
  (indices.zip bits).foldl
    (fun s pb => s.set pb.1 (2 * (s.getD pb.1 0 / 2) + pb.2.toNat)) samples

/-- `AudioSteganography.calculateCapacity` on a sample count:
`capacityBits = floor(n * 0.8)`, `payloadBits = floor(capacityBits / 3)`,
`payloadBytes = floor(payloadBits / 8)`,
result `Math.max(0, payloadBytes - (7 + 4))`. -/
def audioCalculateCapacity (n : Nat) : Int :=
  max 0 ((4 * n / 5 / 3 / 8 : Nat) - (11 : Int))

/-- The capacity formula exactly as the specification words it:
`floor(floor(n * 0.8) / 3 / 8) - 11` (written with the spec's integer
floors, so it can be negative). -/
def audioCapacitySpec (n : Nat) : Int :=
  ((4 * n : Int) / 5) / 3 / 8 - 11

/-- `AudioSteganography.encode` after the PCM collaborator: optionally
encrypt, build the length-prefixed `USTEGA1` frame, triplicate, check
the redundant length against `floor(samples.length * 0.8)`, then embed
at the generator's indices. The `needed > length` guard of the index
generator cannot fire here since
`redundant.length <= floor(0.8 * n) <= n`. -/
def audioEncode (encF : EncryptFn) (hashF : HashFn) (samples msg : List Nat)
    (pw : Option (List Nat)) : Except StegoErr (List Nat) :=
  let msgBytes := utf8Encode (msgToEncode encF msg pw)
  let redundant := tripleBits (frameBits headerUBits msgBytes)
  if redundant.length > 4 * samples.length / 5 then .error .capacityExceeded
  else
    let st := seedState (seedOf hashF pw)
    .ok (embedLSB samples (shuffledSlice st samples.length redundant.length) redundant)

/-- The audio encode together with the caller's sample buffer after the
call: the source writes only into `new Int16Array(samples)`, a copy, so
the caller's buffer is returned unchanged unconditionally. -/
def audioEncodeRun (encF : EncryptFn) (hashF : HashFn) (samples msg : List Nat)
    (pw : Option (List Nat)) : Except StegoErr (List Nat) × List Nat :=
  (audioEncode encF hashF samples msg pw, samples)

/-- The extraction loop of `AudioSteganography.decode`: read the LSB at
each generated index in order; once at least `(7*8 + 32) * 3 = 264`
redundant bits are collected, probe for a complete frame and return its
deciphered payload as soon as one is present; after the indices are
exhausted, fall through to the final attempt. -/
def audioGo (decF : DecryptFn) (samples : List Nat) (pw : Option (List Nat)) :
    List Bool → List Nat → Option (List Nat)
  | stream, [] => match finalExtract headerUBits stream with
      | none => none
      | some bytes => finishCipher decF pw (utf8Decode bytes)
  | stream, idx :: rest =>
      let stream1 := stream ++ [decide (samples.getD idx 0 % 2 = 1)]
      if 264 ≤ stream1.length then
        match earlyExtract headerUBits stream1 with
        | some bytes => finishCipher decF pw (utf8Decode bytes)
        | none => audioGo decF samples pw stream1 rest
      else audioGo decF samples pw stream1 rest

/-- `AudioSteganography.decode` after the PCM collaborator: re-derive
the seed, regenerate `floor(samples.length * 0.8)` indices (the guard
cannot fire since that is at most `samples.length`), then run the
extraction loop. The whole body is wrapped in `try { ... } catch {
return null }`. -/
def audioDecode (decF : DecryptFn) (hashF : HashFn) (samples : List Nat)
    (pw : Option (List Nat)) : Option (List Nat) :=
  let st := seedState (seedOf hashF pw)
  audioGo decF samples pw [] (shuffledSlice st samples.length (4 * samples.length / 5))

/-- The audio decode entry point including its collaborator step
(`fileToAudioBuffer` may throw, modelled by `none`): the surrounding
`try { ... } catch { return null }` converts a collaborator failure to
null. -/
def audioDecodeFile (decF : DecryptFn) (hashF : HashFn) (collab : Option (List Nat))
    (pw : Option (List Nat)) : Option (List Nat) :=
  match collab with
  | none => none
  | some samples => audioDecode decF hashF samples pw

/-! ### Video codec (LSB of the blue channel of PRNG-selected pixels,
per-frame seeds, 3x redundancy) -/

/-- `Math.ceil(pixels * 0.3)`, the per-frame embedding quota. -/
def ceil3Div10 (p : Nat) : Nat := (3 * p + 9) / 10

/-- The frame-specific seed string `seed + ':' + frameIdx` (`':'` is
char code 58, the frame index coerced to decimal digits). -/
def frameSeedChars (seed : List Nat) (frameIdx : Nat) : List Nat :=
  seed ++ 58 :: natDecChars frameIdx

/-- Write bit `i` into the least-significant bit of the blue channel
`data[pixel * 4 + 2]` of the pixel at position `indices[i]`. -/
def embedBlue (frame : List Nat) (indices : List Nat) (bits : List Bool) : List Nat :=
  (indices.zip bits).foldl
    (fun f pb => f.set (4 * pb.1 + 2) (2 * (f.getD (4 * pb.1 + 2) 0 / 2) + pb.2.toNat)) frame

/-- `VideoSteganography.calculateCapacity` on a total pixel count:
`capacityBits = floor(totalPixels * 0.3)` then the same redundancy/8
division and `Math.max(0, payloadBytes - (7 + 4))` clamp as audio. -/
def videoCalculateCapacity (totalPixels : Nat) : Int :=
  max 0 ((3 * totalPixels / 10 / 3 / 8 : Nat) - (11 : Int))

/-- The embedding loop of `VideoSteganography.encode`: per frame, a
fresh PRNG from the frame-specific seed,
`availableThisFrame = min(ceil(pixels * 0.3), remaining)` indices from
the generator (its guard cannot fire: `ceil(0.3 * p) <= p`), the next
`availableThisFrame` redundant bits into the blue LSBs; frames after
the bits run out are left untouched. -/
def videoEmbedGo (seed : List Nat) (red : List Bool) :
    List (List Nat) → Nat → Nat → List (List Nat)
  | [], _, _ => []
  | frame :: rest, frameIdx, bitIndex =>
      if red.length ≤ bitIndex then frame :: rest
      else
        let pixels := frame.length / 4
        let avail := min (ceil3Div10 pixels) (red.length - bitIndex)
        let idxs := shuffledSlice (seedState (frameSeedChars seed frameIdx)) pixels avail
        embedBlue frame idxs ((red.drop bitIndex).take avail)
          :: videoEmbedGo seed red rest (frameIdx + 1) (bitIndex + avail)

/-- `VideoSteganography.encode` after the frame collaborator, in
state-passing form: the pair is the thrown error (if any) and the
caller's frame buffers after the call (`ImageData.data` is mutated in
place). The capacity check
`redundantBinary.length > floor(totalPixels * 0.3)` (with
`totalPixels = frames.length * width * height`, the dimensions of frame
0) happens before the first write, so the error branch leaves every
frame untouched. -/
def videoEncodeRun (encF : EncryptFn) (hashF : HashFn) (frames : List (List Nat))
    (msg : List Nat) (pw : Option (List Nat)) : Option StegoErr × List (List Nat) :=
  let msgBytes := utf8Encode (msgToEncode encF msg pw)
  let redundant := tripleBits (frameBits headerVBits msgBytes)
  let totalPixels := frames.length * ((frames.headD []).length / 4)
  if redundant.length > 3 * totalPixels / 10 then (some .capacityExceeded, frames)
  else (none, videoEmbedGo (seedOf hashF pw) redundant frames 0 0)

/-- The per-frame extraction loop of `VideoSteganography.decode`: read
the blue LSB at each of the frame's generated indices in order; once at
least `(56 + 32) * 3 = 264` redundant bits are collected, probe for a
complete frame and return its deciphered payload (`Sum.inl`) as soon as
one is present; otherwise hand the grown stream back (`Sum.inr`). -/
def videoInnerGo (decF : DecryptFn) (frame : List Nat) (pw : Option (List Nat)) :
    List Nat → List Bool → Sum (Option (List Nat)) (List Bool)
  | [], stream => .inr stream
  | p :: ps, stream =>
      let stream1 := stream ++ [decide (frame.getD (4 * p + 2) 0 % 2 = 1)]
      if 264 ≤ stream1.length then
        match earlyExtract headerVBits stream1 with
        | some bytes => .inl (finishCipher decF pw (utf8Decode bytes))
        | none => videoInnerGo decF frame pw ps stream1
      else videoInnerGo decF frame pw ps stream1

/-- The frame loop of `VideoSteganography.decode`: per frame, the same
frame-specific seed as encode and `ceil(pixels * 0.3)` generated
indices; after the last frame, the final decode attempt. -/
def videoDecGo (decF : DecryptFn) (seed : List Nat) (pw : Option (List Nat)) :
    List (List Nat) → Nat → List Bool → Option (List Nat)
  | [], _, stream => match finalExtract headerVBits stream with
      | none => none
      | some bytes => finishCipher decF pw (utf8Decode bytes)
  | frame :: rest, frameIdx, stream =>
      let pixels := frame.length / 4
      let idxs := shuffledSlice (seedState (frameSeedChars seed frameIdx)) pixels
        (ceil3Div10 pixels)
      match videoInnerGo decF frame pw idxs stream with
      | .inl r => r
      | .inr stream1 => videoDecGo decF seed pw rest (frameIdx + 1) stream1

/-- `VideoSteganography.decode` after the frame collaborator: re-derive
the seed and walk the frames. The whole body is wrapped in
`try { ... } catch { return null }`. -/
def videoDecode (decF : DecryptFn) (hashF : HashFn) (frames : List (List Nat))
    (pw : Option (List Nat)) : Option (List Nat) :=
  videoDecGo decF (seedOf hashF pw) pw frames 0 []

/-- The video decode entry point including its collaborator step
(`videoToFrames` may throw, modelled by `none`): the surrounding
`try { ... } catch { return null }` converts a collaborator failure to
null. -/
def videoDecodeFile (decF : DecryptFn) (hashF : HashFn)
    (collab : Option (List (List Nat))) (pw : Option (List Nat)) : Option (List Nat) :=
  match collab with
  | none => none
  | some frames => videoDecode decF hashF frames pw

/-! ### The corruption relation for the redundancy claim -/

/-- Decidable check that `c` is the 3x-triplicated form of `b` with at
most one flipped bit in each consecutive triplet. -/
def oneFlipOk : List Bool → List Bool → Bool
  | [], [] => true
  | b :: bs, x :: y :: z :: cs =>
      decide ((if x = b then 0 else 1) + (if y = b then 0 else 1)
        + (if z = b then 0 else 1) ≤ 1) && oneFlipOk bs cs
  | _, _ => false

/-! ### A concrete video carrier on which the round trip fails -/

/-- One 10x10 RGBA frame whose bytes are all 1 (in particular every
blue-channel least-significant bit is 1). -/
def badFrame : List Nat := List.replicate 400 1

/-- Ten such frames: 1000 pixels, video capacity
`floor(floor(300) / 3 / 8) - 11 = 1` byte. -/
def badFrames : List (List Nat) := List.replicate 10 badFrame

/-- The one-byte message `'A'`. -/
def msgA : List Nat := [65]

/-- Char codes of the password string `'pw'`. -/
def pw1 : List Nat := [112, 119]

/-- Nine all-ones 10x10 frames: 900 pixels, video capacity
`max(0, floor(floor(270) / 3 / 8) - 11) = 0` bytes, so the empty
message is exactly within capacity. -/
def badFrames9 : List (List Nat) := List.replicate 9 badFrame

/-- The frames produced by encoding the empty message into `badFrames9`
without a password (computed from the model; equality is proved
below). -/
def encodedBadFrames9 : List (List Nat) :=
  [[1, 1, 0, 1, 1, 1, 1, 1, 1, 1, 1, 1, 1, 1, 1, 1, 1, 1, 1, 1, 1, 1, 1, 1, 1, 1, 1, 1, 1, 1, 1, 1, 1, 1, 1, 1, 1, 1, 0, 1, 1, 1, 1, 1, 1, 1, 1, 1, 1, 1, 1, 1, 1, 1, 0, 1, 1, 1, 1, 1, 1, 1, 1, 1, 1, 1, 1, 1, 1, 1, 0, 1, 1, 1, 0, 1, 1, 1, 1, 1, 1, 1, 1, 1, 1, 1, 1, 1, 1, 1, 1, 1, 1, 1, 1, 1, 1, 1, 1, 1, 1, 1, 0, 1, 1, 1, 1, 1, 1, 1, 1, 1, 1, 1, 1, 1, 1, 1, 1, 1, 1, 1, 1, 1, 1, 1, 1, 1, 1, 1, 1, 1, 1, 1, 1, 1, 1, 1, 1, 1, 1, 1, 1, 1, 1, 1, 1, 1, 1, 1, 0, 1, 1, 1, 1, 1, 1, 1, 1, 1, 1, 1, 1, 1, 1, 1, 1, 1, 1, 1, 1, 1, 1, 1, 1, 1, 1, 1, 1, 1, 1, 1, 1, 1, 1, 1, 0, 1, 1, 1, 1, 1, 1, 1, 1, 1, 1, 1, 1, 1, 1, 1, 1, 1, 1, 1, 1, 1, 1, 1, 1, 1, 1, 1, 1, 1, 1, 1, 1, 1, 1, 1, 1, 1, 1, 1, 1, 1, 1, 1, 1, 1, 1, 1, 1, 1, 1, 1, 1, 1, 1, 1, 1, 1, 1, 1, 0, 1, 1, 1, 1, 1, 1, 1, 1, 1, 1, 1, 1, 1, 1, 1, 0, 1, 1, 1, 1, 1, 1, 1, 1, 1, 1, 1, 1, 1, 1, 1, 1, 1, 1, 1, 0, 1, 1, 1, 0, 1, 1, 1, 0, 1, 1, 1, 1, 1, 1, 1, 1, 1, 1, 1, 1, 1, 1, 1, 0, 1, 1, 1, 1, 1, 1, 1, 1, 1, 1, 1, 1, 1, 1, 1, 1, 1, 1, 1, 1, 1, 1, 1, 1, 1, 1, 1, 1, 1, 1, 1, 1, 1, 1, 1, 1, 1, 1, 1, 1, 1, 1, 1, 1, 1, 1, 1, 1, 1, 1, 1, 1, 1, 1, 1, 1, 1, 1, 1, 1, 1, 1, 1, 1, 1, 1, 1, 1, 1, 1, 1, 1, 1, 1, 1, 0, 1, 1, 1, 1, 1, 1, 1, 1, 1, 1, 1, 1, 1, 1, 1, 1, 1], [1, 1, 1, 1, 1, 1, 0, 1, 1, 1, 1, 1, 1, 1, 1, 1, 1, 1, 1, 1, 1, 1, 1, 1, 1, 1, 1, 1, 1, 1, 1, 1, 1, 1, 1, 1, 1, 1, 1, 1, 1, 1, 1, 1, 1, 1, 1, 1, 1, 1, 1, 1, 1, 1, 1, 1, 1, 1, 1, 1, 1, 1, 1, 1, 1, 1, 1, 1, 1, 1, 1, 1, 1, 1, 0, 1, 1, 1, 1, 1, 1, 1, 1, 1, 1, 1, 1, 1, 1, 1, 1, 1, 1, 1, 0, 1, 1, 1, 1, 1, 1, 1, 1, 1, 1, 1, 1, 1, 1, 1, 1, 1, 1, 1, 1, 1, 1, 1, 1, 1, 1, 1, 1, 1, 1, 1, 1, 1, 1, 1, 1, 1, 1, 1, 1, 1, 1, 1, 1, 1, 1, 1, 1, 1, 1, 1, 1, 1, 1, 1, 1, 1, 1, 1, 1, 1, 1, 1, 1, 1, 1, 1, 1, 1, 1, 1, 0, 1, 1, 1, 1, 1, 1, 1, 0, 1, 1, 1, 1, 1, 1, 1, 0, 1, 1, 1, 1, 1, 1, 1, 1, 1, 1, 1, 1, 1, 1, 1, 1, 1, 1, 1, 1, 1, 1, 1, 1, 1, 1, 1, 1, 1, 1, 1, 1, 1, 1, 1, 1, 1, 1, 1, 1, 1, 1, 1, 0, 1, 1, 1, 1, 1, 1, 1, 1, 1, 1, 1, 1, 1, 1, 1, 1, 1, 1, 1, 1, 1, 1, 1, 0, 1, 1, 1, 1, 1, 1, 1, 0, 1, 1, 1, 1, 1, 1, 1, 1, 1, 1, 1, 1, 1, 1, 1, 1, 1, 1, 1, 1, 1, 1, 1, 1, 1, 1, 1, 1, 1, 1, 1, 1, 1, 1, 1, 1, 1, 1, 1, 1, 1, 1, 1, 1, 1, 1, 1, 1, 1, 1, 1, 1, 1, 1, 1, 1, 1, 1, 1, 1, 1, 1, 1, 1, 1, 1, 1, 1, 1, 1, 1, 1, 1, 1, 1, 1, 1, 1, 1, 1, 1, 1, 1, 1, 1, 1, 1, 1, 1, 1, 1, 1, 1, 1, 1, 1, 1, 1, 1, 0, 1, 1, 1, 0, 1, 1, 1, 1, 1, 1, 1, 1, 1, 1, 1, 1, 1, 1, 1, 0, 1, 1, 1, 0, 1, 1, 1, 0, 1, 1, 1, 1, 1, 1, 1, 0, 1, 1, 1, 1, 1], [1, 1, 1, 1, 1, 1, 1, 1, 1, 1, 1, 1, 1, 1, 1, 1, 1, 1, 1, 1, 1, 1, 1, 1, 1, 1, 1, 1, 1, 1, 1, 1, 1, 1, 1, 1, 1, 1, 1, 1, 1, 1, 1, 1, 1, 1, 1, 1, 1, 1, 1, 1, 1, 1, 1, 1, 1, 1, 1, 1, 1, 1, 0, 1, 1, 1, 0, 1, 1, 1, 0, 1, 1, 1, 1, 1, 1, 1, 0, 1, 1, 1, 1, 1, 1, 1, 0, 1, 1, 1, 1, 1, 1, 1, 1, 1, 1, 1, 1, 1, 1, 1, 1, 1, 1, 1, 1, 1, 1, 1, 1, 1, 1, 1, 0, 1, 1, 1, 1, 1, 1, 1, 1, 1, 1, 1, 1, 1, 1, 1, 1, 1, 1, 1, 0, 1, 1, 1, 1, 1, 1, 1, 0, 1, 1, 1, 0, 1, 1, 1, 1, 1, 1, 1, 1, 1, 1, 1, 1, 1, 1, 1, 1, 1, 1, 1, 1, 1, 1, 1, 1, 1, 1, 1, 0, 1, 1, 1, 1, 1, 1, 1, 1, 1, 1, 1, 1, 1, 1, 1, 1, 1, 1, 1, 1, 1, 1, 1, 1, 1, 1, 1, 1, 1, 1, 1, 0, 1, 1, 1, 1, 1, 1, 1, 1, 1, 1, 1, 1, 1, 1, 1, 0, 1, 1, 1, 1, 1, 1, 1, 0, 1, 1, 1, 1, 1, 1, 1, 1, 1, 1, 1, 1, 1, 1, 1, 0, 1, 1, 1, 1, 1, 1, 1, 1, 1, 1, 1, 1, 1, 1, 1, 1, 1, 1, 1, 1, 1, 1, 1, 1, 1, 1, 1, 0, 1, 1, 1, 1, 1, 1, 1, 1, 1, 1, 1, 1, 1, 1, 1, 1, 1, 1, 1, 1, 1, 1, 1, 1, 1, 1, 1, 1, 1, 1, 1, 1, 1, 1, 1, 1, 1, 1, 1, 0, 1, 1, 1, 0, 1, 1, 1, 1, 1, 1, 1, 0, 1, 1, 1, 1, 1, 1, 1, 1, 1, 1, 1, 1, 1, 1, 1, 1, 1, 1, 1, 0, 1, 1, 1, 1, 1, 1, 1, 1, 1, 1, 1, 1, 1, 1, 1, 0, 1, 1, 1, 1, 1, 1, 1, 1, 1, 1, 1, 1, 1, 1, 1, 1, 1, 1, 1, 0, 1, 1, 1, 1, 1, 1, 1, 1, 1, 1, 1, 1, 1, 1, 1, 1, 1], [1, 1, 1, 1, 1, 1, 1, 1, 1, 1, 1, 1, 1, 1, 1, 1, 1, 1, 1, 1, 1, 1, 1, 1, 1, 1, 1, 1, 1, 1, 1, 1, 1, 1, 0, 1, 1, 1, 1, 1, 1, 1, 1, 1, 1, 1, 1, 1, 1, 1, 1, 1, 1, 1, 1, 1, 1, 1, 1, 1, 1, 1, 1, 1, 1, 1, 1, 1, 1, 1, 1, 1, 1, 1, 1, 1, 1, 1, 1, 1, 1, 1, 1, 1, 1, 1, 0, 1, 1, 1, 1, 1, 1, 1, 0, 1, 1, 1, 1, 1, 1, 1, 1, 1, 1, 1, 1, 1, 1, 1, 1, 1, 1, 1, 1, 1, 1, 1, 1, 1, 1, 1, 1, 1, 1, 1, 1, 1, 1, 1, 1, 1, 1, 1, 1, 1, 1, 1, 0, 1, 1, 1, 1, 1, 1, 1, 1, 1, 1, 1, 0, 1, 1, 1, 1, 1, 1, 1, 1, 1, 1, 1, 0, 1, 1, 1, 1, 1, 1, 1, 1, 1, 1, 1, 1, 1, 1, 1, 1, 1, 1, 1, 1, 1, 1, 1, 1, 1, 1, 1, 1, 1, 1, 1, 1, 1, 1, 1, 1, 1, 1, 1, 1, 1, 1, 1, 1, 1, 1, 1, 1, 1, 1, 1, 1, 1, 1, 1, 1, 1, 1, 1, 1, 1, 1, 1, 1, 1, 1, 1, 1, 1, 1, 1, 1, 1, 1, 1, 1, 1, 1, 1, 1, 1, 1, 1, 1, 1, 1, 1, 1, 1, 1, 1, 0, 1, 1, 1, 1, 1, 1, 1, 1, 1, 1, 1, 0, 1, 1, 1, 1, 1, 1, 1, 0, 1, 1, 1, 1, 1, 1, 1, 1, 1, 1, 1, 1, 1, 1, 1, 1, 1, 1, 1, 1, 1, 1, 1, 1, 1, 1, 1, 1, 1, 1, 1, 1, 1, 1, 1, 1, 1, 1, 1, 1, 1, 1, 1, 0, 1, 1, 1, 1, 1, 1, 1, 1, 1, 1, 1, 1, 1, 1, 1, 1, 1, 1, 1, 0, 1, 1, 1, 1, 1, 1, 1, 0, 1, 1, 1, 1, 1, 1, 1, 1, 1, 1, 1, 1, 1, 1, 1, 1, 1, 1, 1, 1, 1, 1, 1, 1, 1, 1, 1, 1, 1, 1, 1, 0, 1, 1, 1, 1, 1, 1, 1, 0, 1, 1, 1, 1, 1, 1, 1, 0, 1, 1, 1, 1, 1], [1, 1, 1, 1, 1, 1, 1, 1, 1, 1, 0, 1, 1, 1, 1, 1, 1, 1, 1, 1, 1, 1, 1, 1, 1, 1, 1, 1, 1, 1, 1, 1, 1, 1, 1, 1, 1, 1, 1, 1, 1, 1, 0, 1, 1, 1, 1, 1, 1, 1, 1, 1, 1, 1, 1, 1, 1, 1, 1, 1, 1, 1, 0, 1, 1, 1, 1, 1, 1, 1, 1, 1, 1, 1, 1, 1, 1, 1, 1, 1, 1, 1, 1, 1, 1, 1, 0, 1, 1, 1, 1, 1, 1, 1, 0, 1, 1, 1, 1, 1, 1, 1, 1, 1, 1, 1, 1, 1, 1, 1, 1, 1, 1, 1, 1, 1, 1, 1, 1, 1, 1, 1, 1, 1, 1, 1, 1, 1, 1, 1, 1, 1, 1, 1, 1, 1, 1, 1, 1, 1, 1, 1, 1, 1, 1, 1, 1, 1, 1, 1, 1, 1, 1, 1, 0, 1, 1, 1, 0, 1, 1, 1, 1, 1, 1, 1, 0, 1, 1, 1, 1, 1, 1, 1, 1, 1, 1, 1, 1, 1, 1, 1, 1, 1, 1, 1, 0, 1, 1, 1, 0, 1, 1, 1, 1, 1, 1, 1, 1, 1, 1, 1, 1, 1, 1, 1, 1, 1, 1, 1, 0, 1, 1, 1, 1, 1, 1, 1, 1, 1, 1, 1, 1, 1, 1, 1, 1, 1, 1, 1, 1, 1, 1, 1, 1, 1, 1, 1, 1, 1, 1, 1, 1, 1, 1, 1, 1, 1, 1, 1, 1, 1, 1, 1, 1, 1, 1, 1, 0, 1, 1, 1, 0, 1, 1, 1, 1, 1, 1, 1, 1, 1, 1, 1, 1, 1, 1, 1, 0, 1, 1, 1, 1, 1, 1, 1, 0, 1, 1, 1, 1, 1, 1, 1, 0, 1, 1, 1, 1, 1, 1, 1, 0, 1, 1, 1, 0, 1, 1, 1, 1, 1, 1, 1, 0, 1, 1, 1, 1, 1, 1, 1, 0, 1, 1, 1, 0, 1, 1, 1, 0, 1, 1, 1, 1, 1, 1, 1, 1, 1, 1, 1, 1, 1, 1, 1, 1, 1, 1, 1, 1, 1, 1, 1, 1, 1, 1, 1, 0, 1, 1, 1, 1, 1, 1, 1, 1, 1, 1, 1, 1, 1, 1, 1, 0, 1, 1, 1, 1, 1, 1, 1, 1, 1, 1, 1, 1, 1, 1, 1, 1, 1, 1, 1, 1, 1, 1, 1, 1, 1], [1, 1, 1, 1, 1, 1, 1, 1, 1, 1, 1, 1, 1, 1, 1, 1, 1, 1, 1, 1, 1, 1, 0, 1, 1, 1, 0, 1, 1, 1, 1, 1, 1, 1, 1, 1, 1, 1, 1, 1, 1, 1, 0, 1, 1, 1, 1, 1, 1, 1, 1, 1, 1, 1, 1, 1, 1, 1, 1, 1, 1, 1, 1, 1, 1, 1, 1, 1, 1, 1, 1, 1, 1, 1, 1, 1, 1, 1, 1, 1, 1, 1, 0, 1, 1, 1, 1, 1, 1, 1, 0, 1, 1, 1, 0, 1, 1, 1, 1, 1, 1, 1, 1, 1, 1, 1, 1, 1, 1, 1, 1, 1, 1, 1, 0, 1, 1, 1, 0, 1, 1, 1, 1, 1, 1, 1, 0, 1, 1, 1, 1, 1, 1, 1, 1, 1, 1, 1, 0, 1, 1, 1, 1, 1, 1, 1, 1, 1, 1, 1, 1, 1, 1, 1, 1, 1, 1, 1, 1, 1, 1, 1, 0, 1, 1, 1, 1, 1, 1, 1, 1, 1, 1, 1, 1, 1, 1, 1, 1, 1, 1, 1, 0, 1, 1, 1, 1, 1, 1, 1, 0, 1, 1, 1, 1, 1, 1, 1, 1, 1, 1, 1, 1, 1, 1, 1, 1, 1, 1, 1, 1, 1, 1, 1, 1, 1, 1, 1, 1, 1, 1, 1, 1, 1, 1, 1, 1, 1, 1, 1, 0, 1, 1, 1, 1, 1, 1, 1, 1, 1, 1, 1, 1, 1, 1, 1, 1, 1, 1, 1, 1, 1, 1, 1, 0, 1, 1, 1, 1, 1, 1, 1, 1, 1, 1, 1, 1, 1, 1, 1, 1, 1, 1, 1, 1, 1, 1, 1, 1, 1, 1, 1, 1, 1, 1, 1, 1, 1, 1, 1, 1, 1, 1, 1, 1, 1, 1, 1, 1, 1, 1, 1, 1, 1, 1, 1, 1, 1, 1, 1, 0, 1, 1, 1, 1, 1, 1, 1, 0, 1, 1, 1, 1, 1, 1, 1, 1, 1, 1, 1, 0, 1, 1, 1, 1, 1, 1, 1, 1, 1, 1, 1, 1, 1, 1, 1, 1, 1, 1, 1, 1, 1, 1, 1, 1, 1, 1, 1, 1, 1, 1, 1, 1, 1, 1, 1, 0, 1, 1, 1, 1, 1, 1, 1, 0, 1, 1, 1, 0, 1, 1, 1, 1, 1, 1, 1, 1, 1, 1, 1, 1, 1, 1, 1, 1, 1, 1, 1, 1, 1], [1, 1, 0, 1, 1, 1, 1, 1, 1, 1, 1, 1, 1, 1, 1, 1, 1, 1, 1, 1, 1, 1, 1, 1, 1, 1, 1, 1, 1, 1, 1, 1, 1, 1, 1, 1, 1, 1, 1, 1, 1, 1, 1, 1, 1, 1, 1, 1, 1, 1, 0, 1, 1, 1, 1, 1, 1, 1, 1, 1, 1, 1, 1, 1, 1, 1, 0, 1, 1, 1, 0, 1, 1, 1, 0, 1, 1, 1, 1, 1, 1, 1, 1, 1, 1, 1, 1, 1, 1, 1, 1, 1, 1, 1, 1, 1, 1, 1, 0, 1, 1, 1, 0, 1, 1, 1, 1, 1, 1, 1, 1, 1, 1, 1, 1, 1, 1, 1, 1, 1, 1, 1, 1, 1, 1, 1, 1, 1, 1, 1, 1, 1, 1, 1, 1, 1, 1, 1, 1, 1, 1, 1, 1, 1, 1, 1, 1, 1, 1, 1, 1, 1, 1, 1, 1, 1, 1, 1, 1, 1, 1, 1, 1, 1, 1, 1, 0, 1, 1, 1, 1, 1, 1, 1, 1, 1, 1, 1, 1, 1, 1, 1, 1, 1, 1, 1, 1, 1, 1, 1, 1, 1, 1, 1, 1, 1, 1, 1, 1, 1, 1, 1, 0, 1, 1, 1, 1, 1, 1, 1, 1, 1, 1, 1, 1, 1, 1, 1, 0, 1, 1, 1, 1, 1, 1, 1, 0, 1, 1, 1, 1, 1, 1, 1, 0, 1, 1, 1, 0, 1, 1, 1, 0, 1, 1, 1, 1, 1, 1, 1, 0, 1, 1, 1, 1, 1, 1, 1, 0, 1, 1, 1, 1, 1, 1, 1, 1, 1, 1, 1, 1, 1, 1, 1, 0, 1, 1, 1, 0, 1, 1, 1, 1, 1, 1, 1, 1, 1, 1, 1, 0, 1, 1, 1, 1, 1, 1, 1, 0, 1, 1, 1, 0, 1, 1, 1, 1, 1, 1, 1, 0, 1, 1, 1, 0, 1, 1, 1, 1, 1, 1, 1, 1, 1, 1, 1, 1, 1, 1, 1, 0, 1, 1, 1, 0, 1, 1, 1, 0, 1, 1, 1, 1, 1, 1, 1, 1, 1, 1, 1, 1, 1, 1, 1, 1, 1, 1, 1, 1, 1, 1, 1, 1, 1, 1, 1, 0, 1, 1, 1, 1, 1, 1, 1, 0, 1, 1, 1, 1, 1, 1, 1, 1, 1, 1, 1, 0, 1, 1, 1, 0, 1, 1, 1, 1, 1, 1, 1, 1, 1], [1, 1, 1, 1, 1, 1, 0, 1, 1, 1, 1, 1, 1, 1, 1, 1, 1, 1, 1, 1, 1, 1, 1, 1, 1, 1, 1, 1, 1, 1, 1, 1, 1, 1, 1, 1, 1, 1, 1, 1, 1, 1, 0, 1, 1, 1, 1, 1, 1, 1, 1, 1, 1, 1, 1, 1, 1, 1, 0, 1, 1, 1, 1, 1, 1, 1, 1, 1, 1, 1, 1, 1, 1, 1, 1, 1, 1, 1, 1, 1, 1, 1, 0, 1, 1, 1, 1, 1, 1, 1, 0, 1, 1, 1, 1, 1, 1, 1, 0, 1, 1, 1, 1, 1, 1, 1, 1, 1, 1, 1, 1, 1, 1, 1, 1, 1, 1, 1, 1, 1, 1, 1, 1, 1, 1, 1, 0, 1, 1, 1, 1, 1, 1, 1, 1, 1, 1, 1, 1, 1, 1, 1, 1, 1, 1, 1, 1, 1, 1, 1, 1, 1, 1, 1, 1, 1, 1, 1, 1, 1, 1, 1, 1, 1, 1, 1, 0, 1, 1, 1, 1, 1, 1, 1, 1, 1, 1, 1, 1, 1, 1, 1, 0, 1, 1, 1, 0, 1, 1, 1, 0, 1, 1, 1, 1, 1, 1, 1, 1, 1, 1, 1, 1, 1, 1, 1, 1, 1, 1, 1, 1, 1, 1, 1, 0, 1, 1, 1, 1, 1, 1, 1, 1, 1, 1, 1, 0, 1, 1, 1, 0, 1, 1, 1, 1, 1, 1, 1, 1, 1, 1, 1, 1, 1, 1, 1, 0, 1, 1, 1, 1, 1, 1, 1, 1, 1, 1, 1, 1, 1, 1, 1, 0, 1, 1, 1, 1, 1, 1, 1, 0, 1, 1, 1, 0, 1, 1, 1, 1, 1, 1, 1, 0, 1, 1, 1, 1, 1, 1, 1, 1, 1, 1, 1, 0, 1, 1, 1, 1, 1, 1, 1, 0, 1, 1, 1, 1, 1, 1, 1, 1, 1, 1, 1, 0, 1, 1, 1, 1, 1, 1, 1, 1, 1, 1, 1, 1, 1, 1, 1, 0, 1, 1, 1, 1, 1, 1, 1, 1, 1, 1, 1, 1, 1, 1, 1, 0, 1, 1, 1, 0, 1, 1, 1, 1, 1, 1, 1, 0, 1, 1, 1, 1, 1, 1, 1, 1, 1, 1, 1, 1, 1, 1, 1, 0, 1, 1, 1, 0, 1, 1, 1, 1, 1, 1, 1, 1, 1, 1, 1, 0, 1, 1, 1, 0, 1, 1, 1, 1, 1], [1, 1, 1, 1, 1, 1, 0, 1, 1, 1, 1, 1, 1, 1, 0, 1, 1, 1, 1, 1, 1, 1, 1, 1, 1, 1, 0, 1, 1, 1, 1, 1, 1, 1, 1, 1, 1, 1, 1, 1, 1, 1, 1, 1, 1, 1, 1, 1, 1, 1, 0, 1, 1, 1, 1, 1, 1, 1, 1, 1, 1, 1, 1, 1, 1, 1, 0, 1, 1, 1, 1, 1, 1, 1, 1, 1, 1, 1, 1, 1, 1, 1, 0, 1, 1, 1, 0, 1, 1, 1, 1, 1, 1, 1, 1, 1, 1, 1, 1, 1, 1, 1, 1, 1, 1, 1, 0, 1, 1, 1, 1, 1, 1, 1, 0, 1, 1, 1, 1, 1, 1, 1, 1, 1, 1, 1, 1, 1, 1, 1, 1, 1, 1, 1, 1, 1, 1, 1, 1, 1, 1, 1, 1, 1, 1, 1, 1, 1, 1, 1, 1, 1, 1, 1, 1, 1, 1, 1, 1, 1, 1, 1, 1, 1, 1, 1, 1, 1, 1, 1, 1, 1, 1, 1, 1, 1, 1, 1, 0, 1, 1, 1, 0, 1, 1, 1, 1, 1, 1, 1, 1, 1, 1, 1, 1, 1, 1, 1, 1, 1, 1, 1, 1, 1, 1, 1, 0, 1, 1, 1, 1, 1, 1, 1, 1, 1, 1, 1, 1, 1, 1, 1, 1, 1, 1, 1, 1, 1, 1, 1, 0, 1, 1, 1, 1, 1, 1, 1, 0, 1, 1, 1, 1, 1, 1, 1, 0, 1, 1, 1, 0, 1, 1, 1, 0, 1, 1, 1, 1, 1, 1, 1, 0, 1, 1, 1, 1, 1, 1, 1, 0, 1, 1, 1, 1, 1, 1, 1, 1, 1, 1, 1, 1, 1, 1, 1, 1, 1, 1, 1, 1, 1, 1, 1, 1, 1, 1, 1, 0, 1, 1, 1, 1, 1, 1, 1, 1, 1, 1, 1, 1, 1, 1, 1, 1, 1, 1, 1, 1, 1, 1, 1, 0, 1, 1, 1, 1, 1, 1, 1, 1, 1, 1, 1, 1, 1, 1, 1, 1, 1, 1, 1, 1, 1, 1, 1, 1, 1, 1, 1, 1, 1, 1, 1, 1, 1, 1, 1, 0, 1, 1, 1, 1, 1, 1, 1, 1, 1, 1, 1, 1, 1, 1, 1, 0, 1, 1, 1, 1, 1, 1, 1, 1, 1, 1, 1, 0, 1, 1, 1, 1, 1, 1, 1, 1, 1, 1, 1, 1, 1]]

/-- The frames produced by encoding `'A'` into `badFrames` without a
password (computed from the model; equality is proved below). -/
def encodedBadFrames : List (List Nat) :=
  [[1, 1, 0, 1, 1, 1, 1, 1, 1, 1, 1, 1, 1, 1, 1, 1, 1, 1, 1, 1, 1, 1, 1, 1, 1, 1, 1, 1, 1, 1, 1, 1, 1, 1, 1, 1, 1, 1, 0, 1, 1, 1, 1, 1, 1, 1, 1, 1, 1, 1, 1, 1, 1, 1, 0, 1, 1, 1, 1, 1, 1, 1, 1, 1, 1, 1, 1, 1, 1, 1, 0, 1, 1, 1, 0, 1, 1, 1, 1, 1, 1, 1, 1, 1, 1, 1, 1, 1, 1, 1, 1, 1, 1, 1, 1, 1, 1, 1, 1, 1, 1, 1, 0, 1, 1, 1, 1, 1, 1, 1, 1, 1, 1, 1, 1, 1, 1, 1, 1, 1, 1, 1, 1, 1, 1, 1, 1, 1, 1, 1, 1, 1, 1, 1, 1, 1, 1, 1, 1, 1, 1, 1, 1, 1, 1, 1, 1, 1, 1, 1, 0, 1, 1, 1, 1, 1, 1, 1, 1, 1, 1, 1, 1, 1, 1, 1, 1, 1, 1, 1, 1, 1, 1, 1, 1, 1, 1, 1, 1, 1, 1, 1, 1, 1, 1, 1, 0, 1, 1, 1, 1, 1, 1, 1, 1, 1, 1, 1, 1, 1, 1, 1, 1, 1, 1, 1, 1, 1, 1, 1, 1, 1, 1, 1, 1, 1, 1, 1, 1, 1, 1, 1, 1, 1, 1, 1, 1, 1, 1, 1, 1, 1, 1, 1, 1, 1, 1, 1, 1, 1, 1, 1, 1, 1, 1, 1, 0, 1, 1, 1, 1, 1, 1, 1, 1, 1, 1, 1, 1, 1, 1, 1, 0, 1, 1, 1, 1, 1, 1, 1, 1, 1, 1, 1, 1, 1, 1, 1, 1, 1, 1, 1, 0, 1, 1, 1, 0, 1, 1, 1, 0, 1, 1, 1, 1, 1, 1, 1, 1, 1, 1, 1, 1, 1, 1, 1, 0, 1, 1, 1, 1, 1, 1, 1, 1, 1, 1, 1, 1, 1, 1, 1, 1, 1, 1, 1, 1, 1, 1, 1, 1, 1, 1, 1, 1, 1, 1, 1, 1, 1, 1, 1, 1, 1, 1, 1, 1, 1, 1, 1, 1, 1, 1, 1, 1, 1, 1, 1, 1, 1, 1, 1, 1, 1, 1, 1, 1, 1, 1, 1, 1, 1, 1, 1, 1, 1, 1, 1, 1, 1, 1, 1, 0, 1, 1, 1, 1, 1, 1, 1, 1, 1, 1, 1, 1, 1, 1, 1, 1, 1], [1, 1, 1, 1, 1, 1, 0, 1, 1, 1, 1, 1, 1, 1, 1, 1, 1, 1, 1, 1, 1, 1, 1, 1, 1, 1, 1, 1, 1, 1, 1, 1, 1, 1, 1, 1, 1, 1, 1, 1, 1, 1, 1, 1, 1, 1, 1, 1, 1, 1, 1, 1, 1, 1, 1, 1, 1, 1, 1, 1, 1, 1, 1, 1, 1, 1, 1, 1, 1, 1, 1, 1, 1, 1, 0, 1, 1, 1, 1, 1, 1, 1, 1, 1, 1, 1, 1, 1, 1, 1, 1, 1, 1, 1, 0, 1, 1, 1, 1, 1, 1, 1, 1, 1, 1, 1, 1, 1, 1, 1, 1, 1, 1, 1, 1, 1, 1, 1, 1, 1, 1, 1, 1, 1, 1, 1, 1, 1, 1, 1, 1, 1, 1, 1, 1, 1, 1, 1, 1, 1, 1, 1, 1, 1, 1, 1, 1, 1, 1, 1, 1, 1, 1, 1, 1, 1, 1, 1, 1, 1, 1, 1, 1, 1, 1, 1, 0, 1, 1, 1, 1, 1, 1, 1, 0, 1, 1, 1, 1, 1, 1, 1, 0, 1, 1, 1, 1, 1, 1, 1, 1, 1, 1, 1, 1, 1, 1, 1, 1, 1, 1, 1, 1, 1, 1, 1, 1, 1, 1, 1, 1, 1, 1, 1, 1, 1, 1, 1, 1, 1, 1, 1, 1, 1, 1, 1, 0, 1, 1, 1, 1, 1, 1, 1, 1, 1, 1, 1, 1, 1, 1, 1, 1, 1, 1, 1, 1, 1, 1, 1, 0, 1, 1, 1, 1, 1, 1, 1, 0, 1, 1, 1, 1, 1, 1, 1, 1, 1, 1, 1, 1, 1, 1, 1, 1, 1, 1, 1, 1, 1, 1, 1, 1, 1, 1, 1, 1, 1, 1, 1, 1, 1, 1, 1, 1, 1, 1, 1, 1, 1, 1, 1, 1, 1, 1, 1, 1, 1, 1, 1, 1, 1, 1, 1, 1, 1, 1, 1, 1, 1, 1, 1, 1, 1, 1, 1, 1, 1, 1, 1, 1, 1, 1, 1, 1, 1, 1, 1, 1, 1, 1, 1, 1, 1, 1, 1, 1, 1, 1, 1, 1, 1, 1, 1, 1, 1, 1, 1, 0, 1, 1, 1, 0, 1, 1, 1, 1, 1, 1, 1, 1, 1, 1, 1, 1, 1, 1, 1, 0, 1, 1, 1, 0, 1, 1, 1, 0, 1, 1, 1, 1, 1, 1, 1, 0, 1, 1, 1, 1, 1], [1, 1, 1, 1, 1, 1, 1, 1, 1, 1, 1, 1, 1, 1, 1, 1, 1, 1, 1, 1, 1, 1, 1, 1, 1, 1, 1, 1, 1, 1, 1, 1, 1, 1, 1, 1, 1, 1, 1, 1, 1, 1, 1, 1, 1, 1, 1, 1, 1, 1, 1, 1, 1, 1, 1, 1, 1, 1, 1, 1, 1, 1, 0, 1, 1, 1, 0, 1, 1, 1, 0, 1, 1, 1, 1, 1, 1, 1, 0, 1, 1, 1, 1, 1, 1, 1, 0, 1, 1, 1, 1, 1, 1, 1, 1, 1, 1, 1, 1, 1, 1, 1, 1, 1, 1, 1, 1, 1, 1, 1, 1, 1, 1, 1, 0, 1, 1, 1, 1, 1, 1, 1, 1, 1, 1, 1, 1, 1, 1, 1, 1, 1, 1, 1, 0, 1, 1, 1, 1, 1, 1, 1, 0, 1, 1, 1, 0, 1, 1, 1, 1, 1, 1, 1, 1, 1, 1, 1, 1, 1, 1, 1, 1, 1, 1, 1, 1, 1, 1, 1, 1, 1, 1, 1, 0, 1, 1, 1, 1, 1, 1, 1, 1, 1, 1, 1, 1, 1, 1, 1, 1, 1, 1, 1, 1, 1, 1, 1, 1, 1, 1, 1, 1, 1, 1, 1, 0, 1, 1, 1, 1, 1, 1, 1, 1, 1, 1, 1, 1, 1, 1, 1, 0, 1, 1, 1, 1, 1, 1, 1, 0, 1, 1, 1, 1, 1, 1, 1, 1, 1, 1, 1, 1, 1, 1, 1, 0, 1, 1, 1, 1, 1, 1, 1, 1, 1, 1, 1, 1, 1, 1, 1, 1, 1, 1, 1, 1, 1, 1, 1, 1, 1, 1, 1, 0, 1, 1, 1, 1, 1, 1, 1, 1, 1, 1, 1, 1, 1, 1, 1, 1, 1, 1, 1, 1, 1, 1, 1, 1, 1, 1, 1, 1, 1, 1, 1, 1, 1, 1, 1, 1, 1, 1, 1, 0, 1, 1, 1, 0, 1, 1, 1, 1, 1, 1, 1, 0, 1, 1, 1, 1, 1, 1, 1, 1, 1, 1, 1, 1, 1, 1, 1, 1, 1, 1, 1, 0, 1, 1, 1, 1, 1, 1, 1, 1, 1, 1, 1, 1, 1, 1, 1, 0, 1, 1, 1, 1, 1, 1, 1, 1, 1, 1, 1, 1, 1, 1, 1, 1, 1, 1, 1, 0, 1, 1, 1, 1, 1, 1, 1, 1, 1, 1, 1, 1, 1, 1, 1, 1, 1], [1, 1, 1, 1, 1, 1, 1, 1, 1, 1, 1, 1, 1, 1, 1, 1, 1, 1, 1, 1, 1, 1, 1, 1, 1, 1, 1, 1, 1, 1, 1, 1, 1, 1, 0, 1, 1, 1, 1, 1, 1, 1, 1, 1, 1, 1, 1, 1, 1, 1, 1, 1, 1, 1, 1, 1, 1, 1, 1, 1, 1, 1, 1, 1, 1, 1, 1, 1, 1, 1, 1, 1, 1, 1, 1, 1, 1, 1, 1, 1, 1, 1, 1, 1, 1, 1, 0, 1, 1, 1, 1, 1, 1, 1, 0, 1, 1, 1, 1, 1, 1, 1, 1, 1, 1, 1, 1, 1, 1, 1, 1, 1, 1, 1, 1, 1, 1, 1, 1, 1, 1, 1, 1, 1, 1, 1, 1, 1, 1, 1, 1, 1, 1, 1, 1, 1, 1, 1, 0, 1, 1, 1, 1, 1, 1, 1, 1, 1, 1, 1, 0, 1, 1, 1, 1, 1, 1, 1, 1, 1, 1, 1, 0, 1, 1, 1, 1, 1, 1, 1, 1, 1, 1, 1, 1, 1, 1, 1, 1, 1, 1, 1, 1, 1, 1, 1, 1, 1, 1, 1, 1, 1, 1, 1, 1, 1, 1, 1, 1, 1, 1, 1, 1, 1, 1, 1, 1, 1, 1, 1, 1, 1, 1, 1, 1, 1, 1, 1, 1, 1, 1, 1, 1, 1, 1, 1, 1, 1, 1, 1, 1, 1, 1, 1, 1, 1, 1, 1, 1, 1, 1, 1, 1, 1, 1, 1, 1, 1, 1, 1, 1, 1, 1, 1, 0, 1, 1, 1, 1, 1, 1, 1, 1, 1, 1, 1, 0, 1, 1, 1, 1, 1, 1, 1, 0, 1, 1, 1, 1, 1, 1, 1, 1, 1, 1, 1, 1, 1, 1, 1, 1, 1, 1, 1, 1, 1, 1, 1, 1, 1, 1, 1, 1, 1, 1, 1, 1, 1, 1, 1, 1, 1, 1, 1, 1, 1, 1, 1, 0, 1, 1, 1, 1, 1, 1, 1, 1, 1, 1, 1, 1, 1, 1, 1, 1, 1, 1, 1, 0, 1, 1, 1, 1, 1, 1, 1, 0, 1, 1, 1, 1, 1, 1, 1, 1, 1, 1, 1, 1, 1, 1, 1, 1, 1, 1, 1, 1, 1, 1, 1, 1, 1, 1, 1, 1, 1, 1, 1, 0, 1, 1, 1, 1, 1, 1, 1, 0, 1, 1, 1, 1, 1, 1, 1, 0, 1, 1, 1, 1, 1], [1, 1, 1, 1, 1, 1, 1, 1, 1, 1, 0, 1, 1, 1, 1, 1, 1, 1, 1, 1, 1, 1, 1, 1, 1, 1, 1, 1, 1, 1, 1, 1, 1, 1, 1, 1, 1, 1, 1, 1, 1, 1, 0, 1, 1, 1, 1, 1, 1, 1, 1, 1, 1, 1, 1, 1, 1, 1, 1, 1, 1, 1, 0, 1, 1, 1, 1, 1, 1, 1, 1, 1, 1, 1, 1, 1, 1, 1, 1, 1, 1, 1, 1, 1, 1, 1, 0, 1, 1, 1, 1, 1, 1, 1, 0, 1, 1, 1, 1, 1, 1, 1, 1, 1, 1, 1, 1, 1, 1, 1, 1, 1, 1, 1, 1, 1, 1, 1, 1, 1, 1, 1, 1, 1, 1, 1, 1, 1, 1, 1, 1, 1, 1, 1, 1, 1, 1, 1, 1, 1, 1, 1, 1, 1, 1, 1, 1, 1, 1, 1, 1, 1, 1, 1, 0, 1, 1, 1, 0, 1, 1, 1, 1, 1, 1, 1, 0, 1, 1, 1, 1, 1, 1, 1, 1, 1, 1, 1, 1, 1, 1, 1, 1, 1, 1, 1, 0, 1, 1, 1, 0, 1, 1, 1, 1, 1, 1, 1, 1, 1, 1, 1, 1, 1, 1, 1, 1, 1, 1, 1, 0, 1, 1, 1, 1, 1, 1, 1, 1, 1, 1, 1, 1, 1, 1, 1, 1, 1, 1, 1, 1, 1, 1, 1, 1, 1, 1, 1, 1, 1, 1, 1, 1, 1, 1, 1, 1, 1, 1, 1, 1, 1, 1, 1, 1, 1, 1, 1, 0, 1, 1, 1, 0, 1, 1, 1, 1, 1, 1, 1, 1, 1, 1, 1, 1, 1, 1, 1, 0, 1, 1, 1, 1, 1, 1, 1, 0, 1, 1, 1, 1, 1, 1, 1, 0, 1, 1, 1, 1, 1, 1, 1, 0, 1, 1, 1, 0, 1, 1, 1, 1, 1, 1, 1, 0, 1, 1, 1, 1, 1, 1, 1, 0, 1, 1, 1, 0, 1, 1, 1, 0, 1, 1, 1, 1, 1, 1, 1, 1, 1, 1, 1, 1, 1, 1, 1, 1, 1, 1, 1, 1, 1, 1, 1, 1, 1, 1, 1, 0, 1, 1, 1, 1, 1, 1, 1, 1, 1, 1, 1, 1, 1, 1, 1, 0, 1, 1, 1, 1, 1, 1, 1, 1, 1, 1, 1, 1, 1, 1, 1, 1, 1, 1, 1, 1, 1, 1, 1, 1, 1], [1, 1, 1, 1, 1, 1, 1, 1, 1, 1, 1, 1, 1, 1, 1, 1, 1, 1, 1, 1, 1, 1, 0, 1, 1, 1, 0, 1, 1, 1, 1, 1, 1, 1, 1, 1, 1, 1, 1, 1, 1, 1, 0, 1, 1, 1, 1, 1, 1, 1, 1, 1, 1, 1, 1, 1, 1, 1, 1, 1, 1, 1, 1, 1, 1, 1, 1, 1, 1, 1, 1, 1, 1, 1, 1, 1, 1, 1, 1, 1, 1, 1, 0, 1, 1, 1, 1, 1, 1, 1, 0, 1, 1, 1, 0, 1, 1, 1, 1, 1, 1, 1, 1, 1, 1, 1, 1, 1, 1, 1, 1, 1, 1, 1, 0, 1, 1, 1, 0, 1, 1, 1, 1, 1, 1, 1, 0, 1, 1, 1, 1, 1, 1, 1, 1, 1, 1, 1, 0, 1, 1, 1, 1, 1, 1, 1, 1, 1, 1, 1, 1, 1, 1, 1, 1, 1, 1, 1, 1, 1, 1, 1, 0, 1, 1, 1, 1, 1, 1, 1, 1, 1, 1, 1, 1, 1, 1, 1, 1, 1, 1, 1, 0, 1, 1, 1, 1, 1, 1, 1, 0, 1, 1, 1, 1, 1, 1, 1, 1, 1, 1, 1, 1, 1, 1, 1, 1, 1, 1, 1, 1, 1, 1, 1, 1, 1, 1, 1, 1, 1, 1, 1, 1, 1, 1, 1, 1, 1, 1, 1, 0, 1, 1, 1, 1, 1, 1, 1, 1, 1, 1, 1, 1, 1, 1, 1, 1, 1, 1, 1, 1, 1, 1, 1, 0, 1, 1, 1, 1, 1, 1, 1, 1, 1, 1, 1, 1, 1, 1, 1, 1, 1, 1, 1, 1, 1, 1, 1, 1, 1, 1, 1, 1, 1, 1, 1, 1, 1, 1, 1, 1, 1, 1, 1, 1, 1, 1, 1, 1, 1, 1, 1, 1, 1, 1, 1, 1, 1, 1, 1, 0, 1, 1, 1, 1, 1, 1, 1, 0, 1, 1, 1, 1, 1, 1, 1, 1, 1, 1, 1, 0, 1, 1, 1, 1, 1, 1, 1, 1, 1, 1, 1, 1, 1, 1, 1, 1, 1, 1, 1, 1, 1, 1, 1, 1, 1, 1, 1, 1, 1, 1, 1, 1, 1, 1, 1, 0, 1, 1, 1, 1, 1, 1, 1, 0, 1, 1, 1, 0, 1, 1, 1, 1, 1, 1, 1, 1, 1, 1, 1, 1, 1, 1, 1, 1, 1, 1, 1, 1, 1], [1, 1, 0, 1, 1, 1, 1, 1, 1, 1, 1, 1, 1, 1, 1, 1, 1, 1, 1, 1, 1, 1, 1, 1, 1, 1, 1, 1, 1, 1, 1, 1, 1, 1, 1, 1, 1, 1, 1, 1, 1, 1, 1, 1, 1, 1, 1, 1, 1, 1, 0, 1, 1, 1, 1, 1, 1, 1, 1, 1, 1, 1, 1, 1, 1, 1, 0, 1, 1, 1, 0, 1, 1, 1, 0, 1, 1, 1, 1, 1, 1, 1, 1, 1, 1, 1, 1, 1, 1, 1, 1, 1, 1, 1, 1, 1, 1, 1, 0, 1, 1, 1, 0, 1, 1, 1, 1, 1, 1, 1, 1, 1, 1, 1, 1, 1, 1, 1, 1, 1, 1, 1, 1, 1, 1, 1, 1, 1, 1, 1, 1, 1, 1, 1, 1, 1, 1, 1, 1, 1, 1, 1, 1, 1, 1, 1, 1, 1, 1, 1, 1, 1, 1, 1, 1, 1, 1, 1, 1, 1, 1, 1, 1, 1, 1, 1, 0, 1, 1, 1, 1, 1, 1, 1, 1, 1, 1, 1, 1, 1, 1, 1, 1, 1, 1, 1, 1, 1, 1, 1, 1, 1, 1, 1, 1, 1, 1, 1, 1, 1, 1, 1, 0, 1, 1, 1, 1, 1, 1, 1, 1, 1, 1, 1, 1, 1, 1, 1, 0, 1, 1, 1, 1, 1, 1, 1, 0, 1, 1, 1, 1, 1, 1, 1, 0, 1, 1, 1, 0, 1, 1, 1, 0, 1, 1, 1, 1, 1, 1, 1, 0, 1, 1, 1, 1, 1, 1, 1, 0, 1, 1, 1, 1, 1, 1, 1, 1, 1, 1, 1, 1, 1, 1, 1, 0, 1, 1, 1, 0, 1, 1, 1, 1, 1, 1, 1, 1, 1, 1, 1, 0, 1, 1, 1, 1, 1, 1, 1, 0, 1, 1, 1, 0, 1, 1, 1, 1, 1, 1, 1, 0, 1, 1, 1, 0, 1, 1, 1, 1, 1, 1, 1, 1, 1, 1, 1, 1, 1, 1, 1, 0, 1, 1, 1, 0, 1, 1, 1, 0, 1, 1, 1, 1, 1, 1, 1, 1, 1, 1, 1, 1, 1, 1, 1, 1, 1, 1, 1, 1, 1, 1, 1, 1, 1, 1, 1, 0, 1, 1, 1, 1, 1, 1, 1, 0, 1, 1, 1, 1, 1, 1, 1, 1, 1, 1, 1, 0, 1, 1, 1, 0, 1, 1, 1, 1, 1, 1, 1, 1, 1], [1, 1, 1, 1, 1, 1, 0, 1, 1, 1, 1, 1, 1, 1, 1, 1, 1, 1, 1, 1, 1, 1, 1, 1, 1, 1, 1, 1, 1, 1, 1, 1, 1, 1, 1, 1, 1, 1, 1, 1, 1, 1, 0, 1, 1, 1, 1, 1, 1, 1, 1, 1, 1, 1, 1, 1, 1, 1, 0, 1, 1, 1, 1, 1, 1, 1, 1, 1, 1, 1, 1, 1, 1, 1, 1, 1, 1, 1, 1, 1, 1, 1, 0, 1, 1, 1, 1, 1, 1, 1, 0, 1, 1, 1, 1, 1, 1, 1, 0, 1, 1, 1, 1, 1, 1, 1, 1, 1, 1, 1, 1, 1, 1, 1, 1, 1, 1, 1, 1, 1, 1, 1, 1, 1, 1, 1, 0, 1, 1, 1, 1, 1, 1, 1, 1, 1, 1, 1, 1, 1, 1, 1, 1, 1, 1, 1, 1, 1, 1, 1, 1, 1, 1, 1, 1, 1, 1, 1, 1, 1, 1, 1, 1, 1, 1, 1, 0, 1, 1, 1, 1, 1, 1, 1, 1, 1, 1, 1, 1, 1, 1, 1, 0, 1, 1, 1, 0, 1, 1, 1, 0, 1, 1, 1, 1, 1, 1, 1, 1, 1, 1, 1, 1, 1, 1, 1, 1, 1, 1, 1, 1, 1, 1, 1, 0, 1, 1, 1, 1, 1, 1, 1, 1, 1, 1, 1, 0, 1, 1, 1, 0, 1, 1, 1, 1, 1, 1, 1, 1, 1, 1, 1, 1, 1, 1, 1, 0, 1, 1, 1, 1, 1, 1, 1, 1, 1, 1, 1, 1, 1, 1, 1, 0, 1, 1, 1, 1, 1, 1, 1, 0, 1, 1, 1, 0, 1, 1, 1, 1, 1, 1, 1, 0, 1, 1, 1, 1, 1, 1, 1, 1, 1, 1, 1, 0, 1, 1, 1, 1, 1, 1, 1, 0, 1, 1, 1, 1, 1, 1, 1, 1, 1, 1, 1, 0, 1, 1, 1, 1, 1, 1, 1, 1, 1, 1, 1, 1, 1, 1, 1, 0, 1, 1, 1, 1, 1, 1, 1, 1, 1, 1, 1, 1, 1, 1, 1, 0, 1, 1, 1, 0, 1, 1, 1, 1, 1, 1, 1, 0, 1, 1, 1, 1, 1, 1, 1, 1, 1, 1, 1, 1, 1, 1, 1, 0, 1, 1, 1, 0, 1, 1, 1, 1, 1, 1, 1, 1, 1, 1, 1, 0, 1, 1, 1, 0, 1, 1, 1, 1, 1], [1, 1, 0, 1, 1, 1, 0, 1, 1, 1, 1, 1, 1, 1, 0, 1, 1, 1, 1, 1, 1, 1, 1, 1, 1, 1, 0, 1, 1, 1, 1, 1, 1, 1, 1, 1, 1, 1, 1, 1, 1, 1, 1, 1, 1, 1, 1, 1, 1, 1, 0, 1, 1, 1, 1, 1, 1, 1, 0, 1, 1, 1, 0, 1, 1, 1, 1, 1, 1, 1, 1, 1, 1, 1, 1, 1, 1, 1, 1, 1, 1, 1, 1, 1, 1, 1, 0, 1, 1, 1, 1, 1, 1, 1, 1, 1, 1, 1, 1, 1, 1, 1, 1, 1, 1, 1, 0, 1, 1, 1, 0, 1, 1, 1, 0, 1, 1, 1, 1, 1, 1, 1, 1, 1, 1, 1, 1, 1, 1, 1, 0, 1, 1, 1, 1, 1, 1, 1, 1, 1, 1, 1, 1, 1, 1, 1, 1, 1, 1, 1, 1, 1, 1, 1, 1, 1, 1, 1, 1, 1, 1, 1, 1, 1, 1, 1, 1, 1, 1, 1, 1, 1, 1, 1, 1, 1, 1, 1, 0, 1, 1, 1, 0, 1, 1, 1, 1, 1, 1, 1, 1, 1, 1, 1, 1, 1, 1, 1, 1, 1, 1, 1, 1, 1, 1, 1, 1, 1, 1, 1, 1, 1, 1, 1, 1, 1, 1, 1, 1, 1, 1, 1, 1, 1, 1, 1, 1, 1, 1, 1, 0, 1, 1, 1, 1, 1, 1, 1, 0, 1, 1, 1, 1, 1, 1, 1, 0, 1, 1, 1, 0, 1, 1, 1, 0, 1, 1, 1, 1, 1, 1, 1, 0, 1, 1, 1, 1, 1, 1, 1, 1, 1, 1, 1, 0, 1, 1, 1, 1, 1, 1, 1, 1, 1, 1, 1, 1, 1, 1, 1, 1, 1, 1, 1, 1, 1, 1, 1, 1, 1, 1, 1, 1, 1, 1, 1, 1, 1, 1, 1, 1, 1, 1, 1, 1, 1, 1, 1, 1, 1, 1, 1, 0, 1, 1, 1, 1, 1, 1, 1, 1, 1, 1, 1, 1, 1, 1, 1, 1, 1, 1, 1, 1, 1, 1, 1, 1, 1, 1, 1, 1, 1, 1, 1, 1, 1, 1, 1, 0, 1, 1, 1, 1, 1, 1, 1, 1, 1, 1, 1, 1, 1, 1, 1, 1, 1, 1, 1, 1, 1, 1, 1, 1, 1, 1, 1, 0, 1, 1, 1, 1, 1, 1, 1, 1, 1, 1, 1, 1, 1], [1, 1, 1, 1, 1, 1, 1, 1, 1, 1, 1, 1, 1, 1, 1, 1, 1, 1, 0, 1, 1, 1, 1, 1, 1, 1, 1, 1, 1, 1, 0, 1, 1, 1, 1, 1, 1, 1, 1, 1, 1, 1, 0, 1, 1, 1, 1, 1, 1, 1, 0, 1, 1, 1, 1, 1, 1, 1, 0, 1, 1, 1, 1, 1, 1, 1, 0, 1, 1, 1, 0, 1, 1, 1, 1, 1, 1, 1, 1, 1, 1, 1, 1, 1, 1, 1, 1, 1, 1, 1, 1, 1, 1, 1, 1, 1, 1, 1, 1, 1, 1, 1, 0, 1, 1, 1, 1, 1, 1, 1, 1, 1, 1, 1, 1, 1, 1, 1, 1, 1, 1, 1, 1, 1, 1, 1, 1, 1, 1, 1, 1, 1, 1, 1, 1, 1, 1, 1, 1, 1, 1, 1, 1, 1, 1, 1, 1, 1, 1, 1, 1, 1, 1, 1, 1, 1, 1, 1, 0, 1, 1, 1, 1, 1, 1, 1, 1, 1, 1, 1, 1, 1, 1, 1, 1, 1, 1, 1, 1, 1, 1, 1, 1, 1, 1, 1, 1, 1, 1, 1, 1, 1, 1, 1, 1, 1, 1, 1, 1, 1, 1, 1, 1, 1, 1, 1, 1, 1, 1, 1, 1, 1, 1, 1, 1, 1, 1, 1, 1, 1, 1, 1, 1, 1, 1, 1, 1, 1, 1, 1, 0, 1, 1, 1, 1, 1, 1, 1, 0, 1, 1, 1, 1, 1, 1, 1, 0, 1, 1, 1, 1, 1, 1, 1, 1, 1, 1, 1, 1, 1, 1, 1, 1, 1, 1, 1, 0, 1, 1, 1, 1, 1, 1, 1, 1, 1, 1, 1, 1, 1, 1, 1, 1, 1, 1, 1, 1, 1, 1, 1, 1, 1, 1, 1, 1, 1, 1, 1, 1, 1, 1, 1, 1, 1, 1, 1, 1, 1, 1, 1, 1, 1, 1, 1, 1, 1, 1, 1, 1, 1, 1, 1, 1, 1, 1, 1, 1, 1, 1, 1, 1, 1, 1, 1, 1, 1, 1, 1, 1, 1, 1, 1, 1, 1, 1, 1, 1, 1, 1, 1, 1, 1, 1, 1, 1, 1, 1, 1, 1, 1, 1, 1, 1, 1, 1, 1, 0, 1, 1, 1, 1, 1, 1, 1, 1, 1, 1, 1, 1, 1, 1, 1, 1, 1, 1, 1, 1, 1, 1, 1, 1, 1, 1, 1, 1, 1, 1, 1, 0, 1]]

/-- The frames produced by encoding `'A'` into `badFrames` with the
password `'pw'` under the identity cipher adapter and identity hash
(computed from the model; equality is proved below). -/
def encodedBadFramesPw : List (List Nat) :=
  [[1, 1, 1, 1, 1, 1, 1, 1, 1, 1, 1, 1, 1, 1, 1, 1, 1, 1, 1, 1, 1, 1, 1, 1, 1, 1, 1, 1, 1, 1, 0, 1, 1, 1, 1, 1, 1, 1, 0, 1, 1, 1, 1, 1, 1, 1, 1, 1, 1, 1, 1, 1, 1, 1, 1, 1, 1, 1, 1, 1, 1, 1, 1, 1, 1, 1, 1, 1, 1, 1, 1, 1, 1, 1, 1, 1, 1, 1, 1, 1, 1, 1, 0, 1, 1, 1, 1, 1, 1, 1, 1, 1, 1, 1, 0, 1, 1, 1, 1, 1, 1, 1, 1, 1, 1, 1, 1, 1, 1, 1, 1, 1, 1, 1, 1, 1, 1, 1, 1, 1, 1, 1, 1, 1, 1, 1, 1, 1, 1, 1, 1, 1, 1, 1, 1, 1, 1, 1, 1, 1, 1, 1, 0, 1, 1, 1, 1, 1, 1, 1, 1, 1, 1, 1, 1, 1, 1, 1, 1, 1, 1, 1, 1, 1, 1, 1, 0, 1, 1, 1, 1, 1, 1, 1, 0, 1, 1, 1, 1, 1, 1, 1, 1, 1, 1, 1, 1, 1, 1, 1, 1, 1, 1, 1, 1, 1, 1, 1, 1, 1, 1, 1, 1, 1, 1, 1, 1, 1, 1, 1, 1, 1, 1, 1, 1, 1, 1, 1, 0, 1, 1, 1, 1, 1, 1, 1, 1, 1, 1, 1, 1, 1, 1, 1, 1, 1, 1, 1, 0, 1, 1, 1, 0, 1, 1, 1, 1, 1, 1, 1, 1, 1, 1, 1, 1, 1, 1, 1, 0, 1, 1, 1, 1, 1, 1, 1, 1, 1, 1, 1, 0, 1, 1, 1, 1, 1, 1, 1, 1, 1, 1, 1, 1, 1, 1, 1, 1, 1, 1, 1, 1, 1, 1, 1, 1, 1, 1, 1, 0, 1, 1, 1, 1, 1, 1, 1, 1, 1, 1, 1, 0, 1, 1, 1, 1, 1, 1, 1, 1, 1, 1, 1, 1, 1, 1, 1, 1, 1, 1, 1, 1, 1, 1, 1, 1, 1, 1, 1, 1, 1, 1, 1, 1, 1, 1, 1, 1, 1, 1, 1, 1, 1, 1, 1, 1, 1, 1, 1, 1, 1, 1, 1, 1, 1, 1, 1, 1, 1, 1, 1, 1, 1, 1, 1, 1, 1, 1, 1, 1, 1, 1, 1, 1, 1, 1, 1, 0, 1, 1, 1, 1, 1, 1, 1, 1, 1, 1, 1, 1, 1], [1, 1, 1, 1, 1, 1, 1, 1, 1, 1, 1, 1, 1, 1, 1, 1, 1, 1, 1, 1, 1, 1, 1, 1, 1, 1, 1, 1, 1, 1, 1, 1, 1, 1, 1, 1, 1, 1, 1, 1, 1, 1, 1, 1, 1, 1, 1, 1, 1, 1, 1, 1, 1, 1, 1, 1, 1, 1, 1, 1, 1, 1, 1, 1, 1, 1, 1, 1, 1, 1, 1, 1, 1, 1, 0, 1, 1, 1, 0, 1, 1, 1, 1, 1, 1, 1, 1, 1, 1, 1, 1, 1, 1, 1, 1, 1, 1, 1, 1, 1, 1, 1, 1, 1, 1, 1, 1, 1, 1, 1, 0, 1, 1, 1, 1, 1, 1, 1, 0, 1, 1, 1, 1, 1, 1, 1, 1, 1, 1, 1, 0, 1, 1, 1, 1, 1, 1, 1, 1, 1, 1, 1, 1, 1, 1, 1, 1, 1, 1, 1, 1, 1, 1, 1, 0, 1, 1, 1, 1, 1, 1, 1, 1, 1, 1, 1, 1, 1, 1, 1, 1, 1, 1, 1, 1, 1, 1, 1, 1, 1, 1, 1, 1, 1, 1, 1, 1, 1, 1, 1, 1, 1, 1, 1, 1, 1, 1, 1, 1, 1, 1, 1, 1, 1, 1, 1, 1, 1, 1, 1, 1, 1, 1, 1, 1, 1, 1, 1, 1, 1, 1, 1, 1, 1, 1, 1, 0, 1, 1, 1, 1, 1, 1, 1, 1, 1, 1, 1, 1, 1, 1, 1, 1, 1, 1, 1, 1, 1, 1, 1, 1, 1, 1, 1, 1, 1, 1, 1, 1, 1, 1, 1, 0, 1, 1, 1, 1, 1, 1, 1, 1, 1, 1, 1, 0, 1, 1, 1, 1, 1, 1, 1, 1, 1, 1, 1, 0, 1, 1, 1, 0, 1, 1, 1, 0, 1, 1, 1, 1, 1, 1, 1, 1, 1, 1, 1, 1, 1, 1, 1, 1, 1, 1, 1, 1, 1, 1, 1, 1, 1, 1, 1, 0, 1, 1, 1, 0, 1, 1, 1, 1, 1, 1, 1, 0, 1, 1, 1, 1, 1, 1, 1, 1, 1, 1, 1, 1, 1, 1, 1, 1, 1, 1, 1, 1, 1, 1, 1, 1, 1, 1, 1, 1, 1, 1, 1, 1, 1, 1, 1, 1, 1, 1, 1, 1, 1, 1, 1, 1, 1, 1, 1, 1, 1, 1, 1, 1, 1, 1, 1, 1, 1, 1, 1, 1, 1, 1, 1, 1, 1], [1, 1, 1, 1, 1, 1, 0, 1, 1, 1, 1, 1, 1, 1, 1, 1, 1, 1, 1, 1, 1, 1, 0, 1, 1, 1, 1, 1, 1, 1, 1, 1, 1, 1, 1, 1, 1, 1, 1, 1, 1, 1, 1, 1, 1, 1, 1, 1, 1, 1, 1, 1, 1, 1, 0, 1, 1, 1, 1, 1, 1, 1, 1, 1, 1, 1, 1, 1, 1, 1, 1, 1, 1, 1, 1, 1, 1, 1, 1, 1, 1, 1, 0, 1, 1, 1, 1, 1, 1, 1, 1, 1, 1, 1, 0, 1, 1, 1, 1, 1, 1, 1, 1, 1, 1, 1, 1, 1, 1, 1, 1, 1, 1, 1, 1, 1, 1, 1, 1, 1, 1, 1, 0, 1, 1, 1, 1, 1, 1, 1, 1, 1, 1, 1, 1, 1, 1, 1, 0, 1, 1, 1, 0, 1, 1, 1, 1, 1, 1, 1, 1, 1, 1, 1, 1, 1, 1, 1, 0, 1, 1, 1, 1, 1, 1, 1, 1, 1, 1, 1, 1, 1, 1, 1, 1, 1, 1, 1, 1, 1, 1, 1, 0, 1, 1, 1, 1, 1, 1, 1, 1, 1, 1, 1, 1, 1, 1, 1, 1, 1, 1, 1, 1, 1, 1, 1, 1, 1, 1, 1, 1, 1, 1, 1, 0, 1, 1, 1, 0, 1, 1, 1, 1, 1, 1, 1, 0, 1, 1, 1, 1, 1, 1, 1, 1, 1, 1, 1, 1, 1, 1, 1, 1, 1, 1, 1, 1, 1, 1, 1, 0, 1, 1, 1, 1, 1, 1, 1, 1, 1, 1, 1, 1, 1, 1, 1, 1, 1, 1, 1, 1, 1, 1, 1, 1, 1, 1, 1, 1, 1, 1, 1, 1, 1, 1, 1, 0, 1, 1, 1, 1, 1, 1, 1, 1, 1, 1, 1, 1, 1, 1, 1, 1, 1, 1, 1, 1, 1, 1, 1, 0, 1, 1, 1, 1, 1, 1, 1, 0, 1, 1, 1, 1, 1, 1, 1, 1, 1, 1, 1, 0, 1, 1, 1, 1, 1, 1, 1, 1, 1, 1, 1, 1, 1, 1, 1, 1, 1, 1, 1, 1, 1, 1, 1, 1, 1, 1, 1, 1, 1, 1, 1, 0, 1, 1, 1, 1, 1, 1, 1, 0, 1, 1, 1, 0, 1, 1, 1, 1, 1, 1, 1, 1, 1, 1, 1, 1, 1, 1, 1, 1, 1, 1, 1, 1, 1, 1, 1, 1, 1], [1, 1, 1, 1, 1, 1, 1, 1, 1, 1, 1, 1, 1, 1, 1, 1, 1, 1, 1, 1, 1, 1, 1, 1, 1, 1, 1, 1, 1, 1, 1, 1, 1, 1, 0, 1, 1, 1, 1, 1, 1, 1, 1, 1, 1, 1, 1, 1, 1, 1, 1, 1, 1, 1, 1, 1, 1, 1, 1, 1, 1, 1, 1, 1, 1, 1, 1, 1, 1, 1, 0, 1, 1, 1, 1, 1, 1, 1, 1, 1, 1, 1, 1, 1, 1, 1, 1, 1, 1, 1, 1, 1, 1, 1, 1, 1, 1, 1, 1, 1, 1, 1, 1, 1, 1, 1, 1, 1, 1, 1, 1, 1, 1, 1, 1, 1, 1, 1, 1, 1, 1, 1, 1, 1, 1, 1, 0, 1, 1, 1, 1, 1, 1, 1, 1, 1, 1, 1, 1, 1, 1, 1, 1, 1, 1, 1, 1, 1, 1, 1, 1, 1, 1, 1, 1, 1, 1, 1, 1, 1, 1, 1, 0, 1, 1, 1, 1, 1, 1, 1, 1, 1, 1, 1, 1, 1, 1, 1, 1, 1, 1, 1, 1, 1, 1, 1, 1, 1, 1, 1, 1, 1, 1, 1, 0, 1, 1, 1, 0, 1, 1, 1, 1, 1, 1, 1, 1, 1, 1, 1, 1, 1, 1, 1, 1, 1, 1, 1, 1, 1, 1, 1, 1, 1, 1, 1, 1, 1, 1, 1, 0, 1, 1, 1, 1, 1, 1, 1, 1, 1, 1, 1, 1, 1, 1, 1, 1, 1, 1, 1, 1, 1, 1, 1, 1, 1, 1, 1, 0, 1, 1, 1, 0, 1, 1, 1, 1, 1, 1, 1, 0, 1, 1, 1, 1, 1, 1, 1, 1, 1, 1, 1, 1, 1, 1, 1, 1, 1, 1, 1, 1, 1, 1, 1, 1, 1, 1, 1, 1, 1, 1, 1, 1, 1, 1, 1, 1, 1, 1, 1, 1, 1, 1, 1, 0, 1, 1, 1, 1, 1, 1, 1, 1, 1, 1, 1, 1, 1, 1, 1, 1, 1, 1, 1, 1, 1, 1, 1, 1, 1, 1, 1, 1, 1, 1, 1, 1, 1, 1, 1, 0, 1, 1, 1, 1, 1, 1, 1, 1, 1, 1, 1, 0, 1, 1, 1, 1, 1, 1, 1, 1, 1, 1, 1, 0, 1, 1, 1, 1, 1, 1, 1, 1, 1, 1, 1, 0, 1, 1, 1, 1, 1, 1, 1, 1, 1, 1, 1, 1, 1], [1, 1, 1, 1, 1, 1, 1, 1, 1, 1, 0, 1, 1, 1, 1, 1, 1, 1, 1, 1, 1, 1, 1, 1, 1, 1, 0, 1, 1, 1, 1, 1, 1, 1, 1, 1, 1, 1, 1, 1, 1, 1, 1, 1, 1, 1, 1, 1, 1, 1, 1, 1, 1, 1, 1, 1, 1, 1, 1, 1, 1, 1, 0, 1, 1, 1, 1, 1, 1, 1, 1, 1, 1, 1, 1, 1, 1, 1, 1, 1, 1, 1, 0, 1, 1, 1, 1, 1, 1, 1, 0, 1, 1, 1, 1, 1, 1, 1, 1, 1, 1, 1, 1, 1, 1, 1, 1, 1, 1, 1, 1, 1, 1, 1, 0, 1, 1, 1, 1, 1, 1, 1, 1, 1, 1, 1, 1, 1, 1, 1, 0, 1, 1, 1, 1, 1, 1, 1, 1, 1, 1, 1, 1, 1, 1, 1, 1, 1, 1, 1, 0, 1, 1, 1, 1, 1, 1, 1, 0, 1, 1, 1, 0, 1, 1, 1, 1, 1, 1, 1, 0, 1, 1, 1, 1, 1, 1, 1, 1, 1, 1, 1, 0, 1, 1, 1, 1, 1, 1, 1, 1, 1, 1, 1, 0, 1, 1, 1, 1, 1, 1, 1, 1, 1, 1, 1, 0, 1, 1, 1, 1, 1, 1, 1, 1, 1, 1, 1, 1, 1, 1, 1, 1, 1, 1, 1, 1, 1, 1, 1, 1, 1, 1, 1, 0, 1, 1, 1, 1, 1, 1, 1, 0, 1, 1, 1, 1, 1, 1, 1, 1, 1, 1, 1, 0, 1, 1, 1, 1, 1, 1, 1, 1, 1, 1, 1, 1, 1, 1, 1, 1, 1, 1, 1, 1, 1, 1, 1, 1, 1, 1, 1, 1, 1, 1, 1, 0, 1, 1, 1, 0, 1, 1, 1, 1, 1, 1, 1, 1, 1, 1, 1, 1, 1, 1, 1, 1, 1, 1, 1, 1, 1, 1, 1, 0, 1, 1, 1, 0, 1, 1, 1, 1, 1, 1, 1, 1, 1, 1, 1, 1, 1, 1, 1, 1, 1, 1, 1, 1, 1, 1, 1, 1, 1, 1, 1, 1, 1, 1, 1, 1, 1, 1, 1, 0, 1, 1, 1, 1, 1, 1, 1, 1, 1, 1, 1, 1, 1, 1, 1, 1, 1, 1, 1, 1, 1, 1, 1, 1, 1, 1, 1, 1, 1, 1, 1, 0, 1, 1, 1, 0, 1, 1, 1, 1, 1, 1, 1, 1, 1], [1, 1, 1, 1, 1, 1, 1, 1, 1, 1, 1, 1, 1, 1, 0, 1, 1, 1, 1, 1, 1, 1, 1, 1, 1, 1, 0, 1, 1, 1, 1, 1, 1, 1, 1, 1, 1, 1, 1, 1, 1, 1, 1, 1, 1, 1, 1, 1, 1, 1, 0, 1, 1, 1, 1, 1, 1, 1, 0, 1, 1, 1, 1, 1, 1, 1, 1, 1, 1, 1, 1, 1, 1, 1, 0, 1, 1, 1, 1, 1, 1, 1, 1, 1, 1, 1, 1, 1, 1, 1, 1, 1, 1, 1, 1, 1, 1, 1, 1, 1, 1, 1, 1, 1, 1, 1, 1, 1, 1, 1, 1, 1, 1, 1, 1, 1, 1, 1, 1, 1, 1, 1, 1, 1, 1, 1, 1, 1, 1, 1, 1, 1, 1, 1, 1, 1, 1, 1, 1, 1, 1, 1, 1, 1, 1, 1, 1, 1, 1, 1, 0, 1, 1, 1, 0, 1, 1, 1, 0, 1, 1, 1, 1, 1, 1, 1, 0, 1, 1, 1, 1, 1, 1, 1, 1, 1, 1, 1, 1, 1, 1, 1, 0, 1, 1, 1, 1, 1, 1, 1, 1, 1, 1, 1, 1, 1, 1, 1, 1, 1, 1, 1, 0, 1, 1, 1, 0, 1, 1, 1, 1, 1, 1, 1, 1, 1, 1, 1, 1, 1, 1, 1, 1, 1, 1, 1, 0, 1, 1, 1, 1, 1, 1, 1, 1, 1, 1, 1, 1, 1, 1, 1, 1, 1, 1, 1, 1, 1, 1, 1, 1, 1, 1, 1, 1, 1, 1, 1, 1, 1, 1, 1, 1, 1, 1, 1, 1, 1, 1, 1, 1, 1, 1, 1, 1, 1, 1, 1, 1, 1, 1, 1, 1, 1, 1, 1, 1, 1, 1, 1, 1, 1, 1, 1, 0, 1, 1, 1, 0, 1, 1, 1, 1, 1, 1, 1, 1, 1, 1, 1, 0, 1, 1, 1, 1, 1, 1, 1, 1, 1, 1, 1, 1, 1, 1, 1, 0, 1, 1, 1, 0, 1, 1, 1, 1, 1, 1, 1, 0, 1, 1, 1, 1, 1, 1, 1, 1, 1, 1, 1, 1, 1, 1, 1, 1, 1, 1, 1, 0, 1, 1, 1, 1, 1, 1, 1, 1, 1, 1, 1, 1, 1, 1, 1, 0, 1, 1, 1, 1, 1, 1, 1, 1, 1, 1, 1, 1, 1, 1, 1, 1, 1, 1, 1, 1, 1, 1, 1, 1, 1], [1, 1, 1, 1, 1, 1, 1, 1, 1, 1, 0, 1, 1, 1, 1, 1, 1, 1, 0, 1, 1, 1, 1, 1, 1, 1, 0, 1, 1, 1, 0, 1, 1, 1, 1, 1, 1, 1, 1, 1, 1, 1, 1, 1, 1, 1, 1, 1, 1, 1, 1, 1, 1, 1, 1, 1, 1, 1, 1, 1, 1, 1, 1, 1, 1, 1, 0, 1, 1, 1, 1, 1, 1, 1, 1, 1, 1, 1, 1, 1, 1, 1, 1, 1, 1, 1, 1, 1, 1, 1, 0, 1, 1, 1, 1, 1, 1, 1, 1, 1, 1, 1, 1, 1, 1, 1, 1, 1, 1, 1, 1, 1, 1, 1, 0, 1, 1, 1, 1, 1, 1, 1, 0, 1, 1, 1, 0, 1, 1, 1, 1, 1, 1, 1, 1, 1, 1, 1, 1, 1, 1, 1, 1, 1, 1, 1, 1, 1, 1, 1, 0, 1, 1, 1, 0, 1, 1, 1, 1, 1, 1, 1, 1, 1, 1, 1, 1, 1, 1, 1, 0, 1, 1, 1, 1, 1, 1, 1, 1, 1, 1, 1, 1, 1, 1, 1, 1, 1, 1, 1, 1, 1, 1, 1, 1, 1, 1, 1, 1, 1, 1, 1, 0, 1, 1, 1, 1, 1, 1, 1, 1, 1, 1, 1, 1, 1, 1, 1, 0, 1, 1, 1, 1, 1, 1, 1, 0, 1, 1, 1, 1, 1, 1, 1, 0, 1, 1, 1, 0, 1, 1, 1, 1, 1, 1, 1, 1, 1, 1, 1, 1, 1, 1, 1, 1, 1, 1, 1, 0, 1, 1, 1, 1, 1, 1, 1, 0, 1, 1, 1, 1, 1, 1, 1, 0, 1, 1, 1, 0, 1, 1, 1, 1, 1, 1, 1, 1, 1, 1, 1, 1, 1, 1, 1, 1, 1, 1, 1, 1, 1, 1, 1, 1, 1, 1, 1, 1, 1, 1, 1, 1, 1, 1, 1, 1, 1, 1, 1, 1, 1, 1, 1, 1, 1, 1, 1, 1, 1, 1, 1, 0, 1, 1, 1, 0, 1, 1, 1, 1, 1, 1, 1, 1, 1, 1, 1, 0, 1, 1, 1, 0, 1, 1, 1, 1, 1, 1, 1, 0, 1, 1, 1, 0, 1, 1, 1, 0, 1, 1, 1, 1, 1, 1, 1, 1, 1, 1, 1, 0, 1, 1, 1, 1, 1, 1, 1, 1, 1, 1, 1, 1, 1, 1, 1, 0, 1, 1, 1, 1, 1], [1, 1, 0, 1, 1, 1, 1, 1, 1, 1, 1, 1, 1, 1, 1, 1, 1, 1, 1, 1, 1, 1, 1, 1, 1, 1, 1, 1, 1, 1, 1, 1, 1, 1, 1, 1, 1, 1, 1, 1, 1, 1, 1, 1, 1, 1, 0, 1, 1, 1, 0, 1, 1, 1, 1, 1, 1, 1, 0, 1, 1, 1, 0, 1, 1, 1, 1, 1, 1, 1, 0, 1, 1, 1, 1, 1, 1, 1, 1, 1, 1, 1, 1, 1, 1, 1, 1, 1, 1, 1, 1, 1, 1, 1, 0, 1, 1, 1, 1, 1, 1, 1, 0, 1, 1, 1, 0, 1, 1, 1, 0, 1, 1, 1, 1, 1, 1, 1, 1, 1, 1, 1, 1, 1, 1, 1, 1, 1, 1, 1, 1, 1, 1, 1, 1, 1, 1, 1, 0, 1, 1, 1, 1, 1, 1, 1, 1, 1, 1, 1, 0, 1, 1, 1, 1, 1, 1, 1, 1, 1, 1, 1, 0, 1, 1, 1, 1, 1, 1, 1, 1, 1, 1, 1, 1, 1, 1, 1, 1, 1, 1, 1, 1, 1, 1, 1, 0, 1, 1, 1, 0, 1, 1, 1, 1, 1, 1, 1, 1, 1, 1, 1, 0, 1, 1, 1, 1, 1, 1, 1, 1, 1, 1, 1, 1, 1, 1, 1, 1, 1, 1, 1, 0, 1, 1, 1, 1, 1, 1, 1, 1, 1, 1, 1, 1, 1, 1, 1, 0, 1, 1, 1, 1, 1, 1, 1, 1, 1, 1, 1, 0, 1, 1, 1, 1, 1, 1, 1, 1, 1, 1, 1, 0, 1, 1, 1, 1, 1, 1, 1, 1, 1, 1, 1, 0, 1, 1, 1, 1, 1, 1, 1, 1, 1, 1, 1, 0, 1, 1, 1, 1, 1, 1, 1, 1, 1, 1, 1, 1, 1, 1, 1, 1, 1, 1, 1, 0, 1, 1, 1, 1, 1, 1, 1, 1, 1, 1, 1, 1, 1, 1, 1, 1, 1, 1, 1, 1, 1, 1, 1, 0, 1, 1, 1, 0, 1, 1, 1, 1, 1, 1, 1, 1, 1, 1, 1, 1, 1, 1, 1, 0, 1, 1, 1, 0, 1, 1, 1, 0, 1, 1, 1, 0, 1, 1, 1, 1, 1, 1, 1, 0, 1, 1, 1, 1, 1, 1, 1, 1, 1, 1, 1, 1, 1, 1, 1, 1, 1, 1, 1, 1, 1, 1, 1, 1, 1, 1, 1, 1, 1], [1, 1, 1, 1, 1, 1, 0, 1, 1, 1, 0, 1, 1, 1, 0, 1, 1, 1, 1, 1, 1, 1, 1, 1, 1, 1, 1, 1, 1, 1, 1, 1, 1, 1, 1, 1, 1, 1, 0, 1, 1, 1, 1, 1, 1, 1, 1, 1, 1, 1, 1, 1, 1, 1, 1, 1, 1, 1, 0, 1, 1, 1, 1, 1, 1, 1, 1, 1, 1, 1, 0, 1, 1, 1, 1, 1, 1, 1, 1, 1, 1, 1, 1, 1, 1, 1, 1, 1, 1, 1, 1, 1, 1, 1, 1, 1, 1, 1, 1, 1, 1, 1, 1, 1, 1, 1, 1, 1, 1, 1, 1, 1, 1, 1, 0, 1, 1, 1, 1, 1, 1, 1, 1, 1, 1, 1, 1, 1, 1, 1, 1, 1, 1, 1, 1, 1, 1, 1, 0, 1, 1, 1, 1, 1, 1, 1, 0, 1, 1, 1, 1, 1, 1, 1, 1, 1, 1, 1, 0, 1, 1, 1, 1, 1, 1, 1, 1, 1, 1, 1, 0, 1, 1, 1, 0, 1, 1, 1, 1, 1, 1, 1, 0, 1, 1, 1, 0, 1, 1, 1, 1, 1, 1, 1, 1, 1, 1, 1, 1, 1, 1, 1, 1, 1, 1, 1, 1, 1, 1, 1, 1, 1, 1, 1, 1, 1, 1, 1, 1, 1, 1, 1, 0, 1, 1, 1, 1, 1, 1, 1, 1, 1, 1, 1, 1, 1, 1, 1, 0, 1, 1, 1, 0, 1, 1, 1, 1, 1, 1, 1, 1, 1, 1, 1, 1, 1, 1, 1, 1, 1, 1, 1, 1, 1, 1, 1, 1, 1, 1, 1, 0, 1, 1, 1, 1, 1, 1, 1, 1, 1, 1, 1, 1, 1, 1, 1, 1, 1, 1, 1, 1, 1, 1, 1, 1, 1, 1, 1, 1, 1, 1, 1, 1, 1, 1, 1, 1, 1, 1, 1, 1, 1, 1, 1, 1, 1, 1, 1, 1, 1, 1, 1, 1, 1, 1, 1, 1, 1, 1, 1, 1, 1, 1, 1, 1, 1, 1, 1, 1, 1, 1, 1, 1, 1, 1, 1, 0, 1, 1, 1, 0, 1, 1, 1, 0, 1, 1, 1, 0, 1, 1, 1, 1, 1, 1, 1, 1, 1, 1, 1, 1, 1, 1, 1, 0, 1, 1, 1, 1, 1, 1, 1, 1, 1, 1, 1, 1, 1, 1, 1, 1, 1, 1, 1, 1, 1, 1, 1, 0, 1], [1, 1, 1, 1, 1, 1, 1, 1, 1, 1, 1, 1, 1, 1, 0, 1, 1, 1, 1, 1, 1, 1, 1, 1, 1, 1, 1, 1, 1, 1, 0, 1, 1, 1, 1, 1, 1, 1, 1, 1, 1, 1, 1, 1, 1, 1, 1, 1, 1, 1, 1, 1, 1, 1, 1, 1, 1, 1, 1, 1, 1, 1, 0, 1, 1, 1, 1, 1, 1, 1, 1, 1, 1, 1, 0, 1, 1, 1, 1, 1, 1, 1, 1, 1, 1, 1, 1, 1, 1, 1, 1, 1, 1, 1, 1, 1, 1, 1, 1, 1, 1, 1, 1, 1, 1, 1, 1, 1, 1, 1, 0, 1, 1, 1, 1, 1, 1, 1, 1, 1, 1, 1, 1, 1, 1, 1, 1, 1, 1, 1, 1, 1, 1, 1, 1, 1, 1, 1, 1, 1, 1, 1, 1, 1, 1, 1, 1, 1, 1, 1, 1, 1, 1, 1, 1, 1, 1, 1, 0, 1, 1, 1, 1, 1, 1, 1, 0, 1, 1, 1, 0, 1, 1, 1, 1, 1, 1, 1, 1, 1, 1, 1, 1, 1, 1, 1, 1, 1, 1, 1, 1, 1, 1, 1, 1, 1, 1, 1, 1, 1, 1, 1, 1, 1, 1, 1, 1, 1, 1, 1, 1, 1, 1, 1, 1, 1, 1, 1, 1, 1, 1, 1, 0, 1, 1, 1, 1, 1, 1, 1, 1, 1, 1, 1, 1, 1, 1, 1, 1, 1, 1, 1, 1, 1, 1, 1, 1, 1, 1, 1, 1, 1, 1, 1, 1, 1, 1, 1, 1, 1, 1, 1, 1, 1, 1, 1, 1, 1, 1, 1, 1, 1, 1, 1, 1, 1, 1, 1, 1, 1, 1, 1, 1, 1, 1, 1, 1, 1, 1, 1, 1, 1, 1, 1, 1, 1, 1, 1, 1, 1, 1, 1, 1, 1, 1, 1, 0, 1, 1, 1, 1, 1, 1, 1, 1, 1, 1, 1, 1, 1, 1, 1, 1, 1, 1, 1, 1, 1, 1, 1, 1, 1, 1, 1, 1, 1, 1, 1, 0, 1, 1, 1, 1, 1, 1, 1, 1, 1, 1, 1, 1, 1, 1, 1, 1, 1, 1, 1, 1, 1, 1, 1, 1, 1, 1, 1, 1, 1, 1, 1, 0, 1, 1, 1, 1, 1, 1, 1, 1, 1, 1, 1, 0, 1, 1, 1, 0, 1, 1, 1, 0, 1, 1, 1, 1, 1, 1, 1, 1, 1]]

/-! ### Lemmas: the partial Fisher-Yates index generator -/

theorem prngStep_lt (st : Nat) : prngStep st < U32 :=
  Nat.mod_lt _ (by decide)

theorem prngFloor_le (st i : Nat) (h : st < U32) : prngFloor st (i + 1) ≤ i := by
  have h1 : st * (i + 1) < (i + 1) * U32 := by
    calc st * (i + 1) = (i + 1) * st := Nat.mul_comm _ _
    _ < (i + 1) * U32 := (Nat.mul_lt_mul_left (Nat.succ_pos i)).mpr h
  have h2 : st * (i + 1) / U32 < i + 1 :=
    (Nat.div_lt_iff_lt_mul (by decide : 0 < U32)).mpr h1
  exact Nat.lt_succ_iff.mp h2

theorem swapIdx_involutive (i j p : Nat) : swapIdx i j (swapIdx i j p) = p := by
  simp only [swapIdx]
  split_ifs <;> omega

theorem swapIdx_injective (i j : Nat) : Function.Injective (swapIdx i j) :=
  Function.LeftInverse.injective (g := swapIdx i j) (fun p => swapIdx_involutive i j p)

theorem fisherSwap_eq (f : Nat → Nat) (i j : Nat) :
    fisherSwap f i j = f ∘ swapIdx i j := by
  funext p
  simp only [fisherSwap, swapIdx, Function.comp_apply]
  split_ifs <;> rfl

theorem fisherSwap_injective {f : Nat → Nat} (hf : Function.Injective f) (i j : Nat) :
    Function.Injective (fisherSwap f i j) := by
  rw [fisherSwap_eq]
  exact Function.Injective.comp hf (swapIdx_injective i j)

theorem shuffleGo_injective (k : Nat) : ∀ (st i : Nat) (f : Nat → Nat),
    Function.Injective f → Function.Injective (shuffleGo k st f i) := by
  induction k with
  | zero => intro st i f hf; exact hf
  | succ k ih =>
      intro st i f hf
      exact ih _ _ _ (fisherSwap_injective hf i _)

theorem shuffleGo_lt (k : Nat) : ∀ (st i n : Nat) (f : Nat → Nat),
    (∀ p, p < n → f p < n) → i < n → ∀ p, p < n → shuffleGo k st f i p < n := by
  induction k with
  | zero => intro st i n f hf _ p hp; exact hf p hp
  | succ k ih =>
      intro st i n f hf hi p hp
      have hj : prngFloor (prngStep st) (i + 1) ≤ i := prngFloor_le _ i (prngStep_lt st)
      refine ih _ (i - 1) n _ ?_ (by omega) p hp
      intro q hq
      simp only [fisherSwap]
      split_ifs
      · exact hf _ (by omega)
      · exact hf _ hi
      · exact hf _ hq

theorem shuffleGo_high (k : Nat) : ∀ (st i p : Nat) (f : Nat → Nat), i < p →
    shuffleGo k st f i p = f p := by
  induction k with
  | zero => intro st i p f _; rfl
  | succ k ih =>
      intro st i p f hip
      have hj : prngFloor (prngStep st) (i + 1) ≤ i := prngFloor_le _ i (prngStep_lt st)
      show shuffleGo k _ (fisherSwap f i _) (i - 1) p = f p
      rw [ih _ (i - 1) p _ (by omega)]
      simp only [fisherSwap]
      split_ifs with h1 h2
      · exact absurd h1 (by omega)
      · exact absurd h2 (by omega)
      · rfl

theorem shuffleGo_zero (k : Nat) : ∀ (st p : Nat) (f : Nat → Nat),
    shuffleGo k st f 0 p = f p := by
  induction k with
  | zero => intro st p f; rfl
  | succ k ih =>
      intro st p f
      have hj : prngFloor (prngStep st) (0 + 1) = 0 :=
        Nat.div_eq_of_lt (by simpa using prngStep_lt st)
      show shuffleGo k _ (fisherSwap f 0 (prngFloor (prngStep st) (0 + 1))) (0 - 1) p = f p
      rw [hj, ih]
      simp only [fisherSwap]
      split_ifs with h1
      · rw [h1]
      · rfl

theorem shuffleGo_stable (k : Nat) : ∀ (k1 st i p : Nat) (f : Nat → Nat), k ≤ k1 →
    i < p + k → shuffleGo k1 st f i p = shuffleGo k st f i p := by
  induction k with
  | zero =>
      intro k1 st i p f _ hip
      rw [shuffleGo_high k1 st i p f (by omega)]
      rfl
  | succ k ih =>
      intro k1 st i p f hk hip
      cases k1 with
      | zero => exact absurd hk (by omega)
      | succ k2 =>
          by_cases hi : i = 0
          · subst hi
            rw [shuffleGo_zero, shuffleGo_zero]
          · show shuffleGo k2 _ (fisherSwap f i _) (i - 1) p
              = shuffleGo k _ (fisherSwap f i _) (i - 1) p
            exact ih k2 _ (i - 1) p _ (by omega) (by omega)

theorem range'_drop : ∀ (k s l : Nat), (List.range' s l).drop k = List.range' (s + k) (l - k)
  | 0, s, l => by simp
  | k + 1, s, 0 => by simp
  | k + 1, s, l + 1 => by
      rw [List.range'_succ]
      show (List.range' (s + 1) l).drop k = _
      rw [range'_drop k (s + 1) l]
      congr 1 <;> omega

theorem shuffledSlice_length (st len needed : Nat) :
    (shuffledSlice st len needed).length = needed := by
  simp [shuffledSlice]

theorem shuffledSlice_nodup (st len needed : Nat) : (shuffledSlice st len needed).Nodup :=
  List.Nodup.map (shuffleGo_injective needed st (len - 1) id Function.injective_id)
    (List.nodup_range' _ _)

theorem shuffledSlice_mem_lt (st len needed : Nat) (h : needed ≤ len) :
    ∀ x ∈ shuffledSlice st len needed, x < len := by
  intro x hx
  unfold shuffledSlice at hx
  rw [List.mem_map] at hx
  obtain ⟨p, hp, rfl⟩ := hx
  rw [List.mem_range'_1] at hp
  have hplen : p < len := by omega
  exact shuffleGo_lt needed st (len - 1) len id (fun q hq => hq) (by omega) p hplen

theorem shuffledSlice_suffix (st n a b : Nat) (hab : a ≤ b) (hbn : b ≤ n) :
    shuffledSlice st n a = (shuffledSlice st n b).drop (b - a) := by
  unfold shuffledSlice
  rw [← List.map_drop, range'_drop]
  have h1 : n - b + (b - a) = n - a := by omega
  have h2 : b - (b - a) = a := by omega
  rw [h1, h2]
  apply List.map_congr_left
  intro p hp
  rw [List.mem_range'_1] at hp
  exact (shuffleGo_stable a b st (n - 1) p id hab (by omega)).symm

/-! ### Lemmas: bit widths of the framing -/

theorem natBitsGo_length (fuel : Nat) : ∀ (n k : Nat), n < 2 ^ k → 1 ≤ k →
    (natBitsGo fuel n).length ≤ k := by
  induction fuel with
  | zero => intro n k _ _; simp [natBitsGo]
  | succ fuel ih =>
      intro n k hn hk
      by_cases h2 : n < 2
      · simp only [natBitsGo, if_pos h2, List.length_cons, List.length_nil]
        omega
      · have hk2 : 2 ≤ k := by
          rcases Nat.lt_or_ge k 2 with hlt | hge
          · have hk1 : k = 1 := by omega
            subst hk1
            simp at hn
            omega
          · exact hge
        have hdiv : n / 2 < 2 ^ (k - 1) := by
          have hp : 2 ^ (k - 1) * 2 = 2 ^ k := by
            rw [← pow_succ]
            congr 1
            omega
          refine (Nat.div_lt_iff_lt_mul (by omega)).mpr ?_
          omega
        simp only [natBitsGo, if_neg h2, List.length_append, List.length_cons,
          List.length_nil]
        have := ih (n / 2) (k - 1) hdiv (by omega)
        omega

theorem charBits_length (c : Nat) (h : c < 256) : (charBits c).length = 8 := by
  have h8 : (natBitsGo (c + 1) c).length ≤ 8 :=
    natBitsGo_length (c + 1) c 8 (by simpa using h) (by omega)
  simp only [charBits, padStartBits, natBits, List.length_append, List.length_replicate]
  omega

theorem flatMap_charBits_length (msg : List Nat) (h : ∀ c ∈ msg, c < 256) :
    (msg.flatMap charBits).length = 8 * msg.length := by
  induction msg with
  | nil => simp
  | cons c cs ih =>
      simp only [List.flatMap_cons, List.length_append, List.length_cons]
      rw [charBits_length c (h c (by simp)), ih (fun x hx => h x (by simp [hx]))]
      ring

/-! ### Lemmas: the zero-width marker embedding -/

theorem isZW_zwOf (b1 b2 : Bool) : isZW (zwOf b1 b2) = true := by
  cases b1 <;> cases b2 <;> rfl

theorem pairOf_zwOf (b1 b2 : Bool) : pairOf (zwOf b1 b2) = [b1, b2] := by
  cases b1 <;> cases b2 <;> rfl

theorem zwList_short (l : List Bool) (h : l.length ≤ 1) : zwList l = [] := by
  match l with
  | [] => rfl
  | [_] => rfl
  | _ :: _ :: _ => simp at h

theorem textEmbedGo_filter : ∀ (cover : List Nat) (bits : List Bool),
    (∀ c ∈ cover, isZW c = false) →
    (textEmbedGo cover bits).filter (fun c => isZW c)
      = zwList (bits.take (2 * cover.length)) := by
  intro cover
  induction cover with
  | nil =>
      intro bits _
      simp [textEmbedGo, zwList]
  | cons c cs ih =>
      intro bits hclean
      have hc : isZW c = false := hclean c (by simp)
      match bits with
      | [] => simp [textEmbedGo, zwList]
      | [b1] =>
          have hrec := ih [b1] (fun x hx => hclean x (by simp [hx]))
          have hz1 : zwList (List.take (2 * cs.length) [b1]) = [] := by
            refine zwList_short _ ?_
            simp only [List.length_take, List.length_cons, List.length_nil]
            omega
          have hz2 : zwList (List.take (2 * (c :: cs).length) [b1]) = [] := by
            refine zwList_short _ ?_
            simp only [List.length_take, List.length_cons, List.length_nil]
            omega
          show List.filter (fun c => isZW c) (c :: textEmbedGo cs [b1]) = _
          rw [List.filter_cons_of_neg (by simp [hc]), hrec, hz1, hz2]
      | b1 :: b2 :: rest =>
          have hrec := ih rest (fun x hx => hclean x (by simp [hx]))
          show List.filter (fun c => isZW c) (c :: zwOf b1 b2 :: textEmbedGo cs rest) = _
          rw [List.filter_cons_of_neg (by simp [hc]),
            List.filter_cons_of_pos (by simp [isZW_zwOf]), hrec]
          have h2 : 2 * (c :: cs).length = 2 * cs.length + 1 + 1 := by
            simp only [List.length_cons]
            ring
          rw [h2, List.take_succ_cons, List.take_succ_cons]
          rfl

theorem textEmbed_filter (cover : List Nat) (bits : List Bool)
    (hclean : ∀ c ∈ cover, isZW c = false) :
    (textEmbed cover bits).filter (fun c => isZW c)
      = zwList (bits.take (2 * cover.length)) := by
  simp only [textEmbed]
  rw [List.filter_append, textEmbedGo_filter cover bits hclean]
  have hdrop : ∀ k, (cover.drop k).filter (fun c => isZW c) = [] := by
    intro k
    refine List.filter_eq_nil_iff.mpr ?_
    intro a ha
    simp [hclean a (List.drop_subset _ _ ha)]
  rw [hdrop, List.append_nil]

/-! ### Lemmas: decode boundaries convert cipher failures to null -/

theorem finishCipher_none {decF : DecryptFn} {p : List Nat}
    (h : ∀ c, decF c p = none) (d : List Nat) : finishCipher decF (some p) d = none := by
  simp [finishCipher, h]

theorem finishCipher_degenerate {decF : DecryptFn} {p : List Nat}
    (h : ∀ c, decF c p = none ∨ decF c p = some []) (d : List Nat) :
    finishCipher decF (some p) d = none := by
  simp only [finishCipher]
  rcases h d with hd | hd <;> simp [hd]

theorem audioGo_none {decF : DecryptFn} {p : List Nat}
    (hfc : ∀ d, finishCipher decF (some p) d = none)
    (samples : List Nat) : ∀ (idxs : List Nat) (stream : List Bool),
    audioGo decF samples (some p) stream idxs = none := by
  intro idxs
  induction idxs with
  | nil =>
      intro stream
      cases hfe : finalExtract headerUBits stream with
      | none => simp [audioGo, hfe]
      | some bytes => simp [audioGo, hfe, hfc]
  | cons idx rest ih =>
      intro stream
      simp only [audioGo]
      split
      · cases hee : earlyExtract headerUBits (stream ++ [decide (samples.getD idx 0 % 2 = 1)]) with
        | some bytes => simp [hee, hfc]
        | none => simp [hee, ih]
      · exact ih _

theorem videoInnerGo_none {decF : DecryptFn} {p : List Nat}
    (hfc : ∀ d, finishCipher decF (some p) d = none)
    (frame : List Nat) : ∀ (idxs : List Nat) (stream : List Bool),
    videoInnerGo decF frame (some p) idxs stream = Sum.inl (none : Option (List Nat)) ∨
    ∃ s1, videoInnerGo decF frame (some p) idxs stream = Sum.inr s1 := by
  intro idxs
  induction idxs with
  | nil =>
      intro stream
      right
      exact ⟨stream, rfl⟩
  | cons q rest ih =>
      intro stream
      simp only [videoInnerGo]
      split
      · cases hee : earlyExtract headerVBits
            (stream ++ [decide (frame.getD (4 * q + 2) 0 % 2 = 1)]) with
        | some bytes =>
            left
            simp [hee, hfc]
        | none =>
            simpa [hee] using ih _
      · exact ih _

theorem videoDecGo_none {decF : DecryptFn} {p : List Nat}
    (hfc : ∀ d, finishCipher decF (some p) d = none)
    (seed : List Nat) : ∀ (frames : List (List Nat)) (frameIdx : Nat) (stream : List Bool),
    videoDecGo decF seed (some p) frames frameIdx stream = none := by
  intro frames
  induction frames with
  | nil =>
      intro fi stream
      cases hfe : finalExtract headerVBits stream with
      | none => simp [videoDecGo, hfe]
      | some bytes => simp [videoDecGo, hfe, hfc]
  | cons frame rest ih =>
      intro fi stream
      simp only [videoDecGo]
      rcases videoInnerGo_none hfc frame
          (shuffledSlice (seedState (frameSeedChars seed fi)) (frame.length / 4)
            (ceil3Div10 (frame.length / 4))) stream with hinl | ⟨s1, hinr⟩
      · rw [hinl]
      · rw [hinr]
        exact ih _ _

/-! ### Claim theorems -/

/-- C3 (counterexample): the claim says `AudioSteganography.calculateCapacity`
returns exactly `floor(floor(n * 0.8) / 3 / 8) - 11` bytes; at `n = 0`
samples that formula gives `-11`, while the code's `Math.max(0, ...)`
clamp returns `0`. -/
theorem c3_audio_capacity_counterexample :
    ¬ audioCalculateCapacity 0 = audioCapacitySpec 0 := by
  decide

/-- C3 (amended): for an audio carrier with `n` PCM samples,
`AudioSteganography.calculateCapacity` returns
`max 0 (floor(floor(n * 0.8) / 3 / 8) - 11)` — the claimed 80 percent /
3x-redundancy / 8-bits-per-byte formula with the 11-byte header
overhead, clamped at zero. -/
theorem c3_audio_capacity_clamped (n : Nat) :
    audioCalculateCapacity n = max 0 (audioCapacitySpec n) := by
  unfold audioCalculateCapacity audioCapacitySpec
  congr 2

/-- C4: the checked `TextSteganography.encode` fails with
CapacityExceeded exactly when `ceil(frameBitLength / 2)` exceeds the
cover text length, where `frameBitLength` is 8 bits per character of the
(possibly encrypted) message plus the 16-bit end marker, i.e.
`ceil((8 * L + 16) / 2) = 4 * L + 8`; for every input below that bound
it succeeds without error. Characters of the message-to-encode are
assumed below 256 (as the claim's 8-bits-per-character accounting
presumes; ciphertext is Base64, hence ASCII). -/
theorem c4_text_capacity_check (encF : EncryptFn) (cover msg : List Nat)
    (pw : Option (List Nat)) (h : ∀ c ∈ msgToEncode encF msg pw, c < 256) :
    (textEncodeChecked encF cover msg pw = .error .capacityExceeded ↔
      cover.length < 4 * (msgToEncode encF msg pw).length + 8) ∧
    (4 * (msgToEncode encF msg pw).length + 8 ≤ cover.length →
      textEncodeChecked encF cover msg pw
        = .ok (textEmbed cover ((msgToEncode encF msg pw).flatMap charBits ++ endMarker))) := by
  have hlen : ((msgToEncode encF msg pw).flatMap charBits ++ endMarker).length
      = 8 * (msgToEncode encF msg pw).length + 16 := by
    rw [List.length_append, flatMap_charBits_length _ h]
    simp [endMarker]
  have hkey : (((msgToEncode encF msg pw).flatMap charBits ++ endMarker).length + 1) / 2
      = 4 * (msgToEncode encF msg pw).length + 8 := by
    rw [hlen]
    omega
  have hunf : textEncodeChecked encF cover msg pw =
      if cover.length < 4 * (msgToEncode encF msg pw).length + 8 then .error .capacityExceeded
      else .ok (textEmbed cover ((msgToEncode encF msg pw).flatMap charBits ++ endMarker)) := by
    simp only [textEncodeChecked]
    rw [hkey]
  rw [hunf]
  split_ifs with hc
  · exact ⟨⟨fun _ => hc, fun _ => rfl⟩, fun hge => absurd hc (by omega)⟩
  · exact ⟨⟨fun he => absurd he (by simp), fun hlt => absurd hlt hc⟩, fun _ => rfl⟩

/-- Witness for C4 at a concrete cover and message. -/
theorem c4_text_capacity_check_witness :
    (textEncodeChecked (fun m _ => m) [97, 98, 99, 100] [65] none
        = .error .capacityExceeded ↔ (4 : Nat) < 4 * 1 + 8) ∧
    (4 * 1 + 8 ≤ 4 →
      textEncodeChecked (fun m _ => m) [97, 98, 99, 100] [65] none
        = .ok (textEmbed [97, 98, 99, 100] (([65] : List Nat).flatMap charBits ++ endMarker))) :=
  c4_text_capacity_check (fun m _ => m) [97, 98, 99, 100] [65] none (by decide)

/-- C5: for every seed, universe size `n` and count `c`, the Index
Generator with `c ≤ n` returns exactly `c` pairwise-distinct integers
below `n`; it is deterministic (a pure function of `(seed, n, c)`); and
with `c > n` it fails with CapacityExceeded. -/
theorem c5_index_generator (seed : List Nat) (n c : Nat) :
    (c ≤ n →
      generateIndicesPRNG (seedState seed) n c = .ok (shuffledSlice (seedState seed) n c) ∧
      (shuffledSlice (seedState seed) n c).length = c ∧
      (shuffledSlice (seedState seed) n c).Nodup ∧
      (∀ x ∈ shuffledSlice (seedState seed) n c, x < n)) ∧
    generateIndicesPRNG (seedState seed) n c = generateIndicesPRNG (seedState seed) n c ∧
    (n < c → generateIndicesPRNG (seedState seed) n c = .error .capacityExceeded) := by
  refine ⟨?_, rfl, ?_⟩
  · intro hcn
    refine ⟨?_, shuffledSlice_length _ _ _, shuffledSlice_nodup _ _ _,
      shuffledSlice_mem_lt _ _ _ hcn⟩
    simp only [generateIndicesPRNG]
    rw [if_neg (by omega)]
  · intro hnc
    simp only [generateIndicesPRNG]
    rw [if_pos (by omega)]

/-- Witness for C5 at seed `[1, 2, 3]`, universe 5, counts 3 and 7. -/
theorem c5_index_generator_witness :
    generateIndicesPRNG (seedState [1, 2, 3]) 5 3
      = .ok (shuffledSlice (seedState [1, 2, 3]) 5 3) ∧
    (shuffledSlice (seedState [1, 2, 3]) 5 3).length = 3 ∧
    (shuffledSlice (seedState [1, 2, 3]) 5 3).Nodup ∧
    generateIndicesPRNG (seedState [1, 2, 3]) 5 7 = .error .capacityExceeded := by
  obtain ⟨h1, h2, h3, _h4⟩ := (c5_index_generator [1, 2, 3] 5 3).1 (by decide)
  exact ⟨h1, h2, h3, (c5_index_generator [1, 2, 3] 5 7).2.2 (by decide)⟩

/-- C6: majority vote tolerates one flipped bit per triplet — the
triplicated form of any bit string satisfies the corruption relation,
and collapsing any corruption with at most one flip per triplet
recovers the original bit string exactly. -/
theorem c6_majority_vote_corrects :
    (∀ b : List Bool, oneFlipOk b (tripleBits b) = true) ∧
    (∀ b c : List Bool, oneFlipOk b c = true → decodeRedundantBits c = b) := by
  constructor
  · intro b
    induction b with
    | nil => rfl
    | cons x bs ih =>
        cases x <;> simpa [tripleBits, oneFlipOk] using ih
  · intro b
    induction b with
    | nil =>
        intro c hc
        cases c with
        | nil => rfl
        | cons x xs => simp [oneFlipOk] at hc
    | cons x bs ih =>
        intro c hc
        match c with
        | [] => simp [oneFlipOk] at hc
        | [_] => simp [oneFlipOk] at hc
        | [_, _] => simp [oneFlipOk] at hc
        | x1 :: y1 :: z1 :: cs =>
            simp only [oneFlipOk, Bool.and_eq_true, decide_eq_true_eq] at hc
            obtain ⟨h1, h2⟩ := hc
            simp only [decodeRedundantBits]
            rw [ih cs h2]
            congr 1
            cases x <;> cases x1 <;> cases y1 <;> cases z1 <;> simp_all

/-- Witness for C6: a triplicated string with one flip in each triplet
collapses back to the original. -/
theorem c6_majority_vote_corrects_witness :
    oneFlipOk [true, false] [true, false, true, false, true, false] = true ∧
    decodeRedundantBits [true, false, true, false, true, false] = [true, false] := by
  have h := c6_majority_vote_corrects.2 [true, false]
    [true, false, true, false, true, false] (by decide)
  exact ⟨by decide, h⟩

/-- C9: whenever `encode` fails with CapacityExceeded the caller's
carrier is unchanged: the image and video encoders check capacity
before their first in-place write; the audio encoder writes only into a
copy of the caller's samples; the text encoder's cover string is
immutable. -/
theorem c9_no_partial_embedding :
    (∀ (encF : EncryptFn) (data msg : List Nat) (pw : Option (List Nat)) (e : StegoErr),
      (imageEncodeRun encF data msg pw).1 = some e →
      (imageEncodeRun encF data msg pw).2 = data) ∧
    (∀ (encF : EncryptFn) (hashF : HashFn) (frames : List (List Nat)) (msg : List Nat)
      (pw : Option (List Nat)) (e : StegoErr),
      (videoEncodeRun encF hashF frames msg pw).1 = some e →
      (videoEncodeRun encF hashF frames msg pw).2 = frames) ∧
    (∀ (encF : EncryptFn) (hashF : HashFn) (samples msg : List Nat) (pw : Option (List Nat)),
      (audioEncodeRun encF hashF samples msg pw).2 = samples) ∧
    (∀ (encF : EncryptFn) (cover msg : List Nat) (pw : Option (List Nat)),
      (textEncodeCheckedRun encF cover msg pw).2 = cover) := by
  refine ⟨?_, ?_, fun _ _ _ _ _ => rfl, fun _ _ _ _ => rfl⟩
  · intro encF data msg pw e he
    simp only [imageEncodeRun] at he ⊢
    split_ifs at he ⊢ with hc
    rfl
  · intro encF hashF frames msg pw e he
    simp only [videoEncodeRun] at he ⊢
    split_ifs at he ⊢ with hc
    rfl

/-- Witness for C9: a one-pixel image and an empty frame list both
reject the one-byte message and are returned unchanged. -/
theorem c9_no_partial_embedding_witness :
    (imageEncodeRun (fun m _ => m) [7, 7, 7, 7] [65] none).2 = [7, 7, 7, 7] ∧
    (videoEncodeRun (fun m _ => m) (fun p => p) [] [65] none).2 = [] := by
  refine ⟨c9_no_partial_embedding.1 (fun m _ => m) [7, 7, 7, 7] [65] none
      .capacityExceeded (by decide),
    c9_no_partial_embedding.2.1 (fun m _ => m) (fun p => p) [] [65] none
      .capacityExceeded (by decide)⟩

/-- C7: each of the four decode entry points is total into
message-or-null and converts downstream failures to null: an absent
marker alphabet or absent end marker yields null for the text decoder,
an absent end marker yields null for the image decoder, a cipher
adapter that fails (throws) on every input under the given password
forces the text, image, audio and video decoders (all their early-exit
and final paths included) to return null, and a failing media
collaborator (canvas, PCM decode, frame extraction) is caught by the
decode boundary's try/catch and reported as null, never as a thrown
error. -/
theorem c7_decode_notfound_boundary :
    (∀ (decF : DecryptFn) (stego : List Nat) (pw : Option (List Nat)),
      stego.filter (fun c => isZW c) = [] → textDecode decF stego pw = none) ∧
    (∀ (decF : DecryptFn) (stego : List Nat) (pw : Option (List Nat)),
      findPattern endMarker (zwToBits (stego.filter (fun c => isZW c))) = none →
      textDecode decF stego pw = none) ∧
    (∀ (decF : DecryptFn) (p : List Nat), (∀ c, decF c p = none) →
      ∀ stego, textDecode decF stego (some p) = none) ∧
    (∀ (decF : DecryptFn) (hashF : HashFn) (p : List Nat), (∀ c, decF c p = none) →
      ∀ samples, audioDecode decF hashF samples (some p) = none) ∧
    (∀ (decF : DecryptFn) (hashF : HashFn) (p : List Nat), (∀ c, decF c p = none) →
      ∀ frames, videoDecode decF hashF frames (some p) = none) ∧
    (∀ (decF : DecryptFn) (data : List Nat) (pw : Option (List Nat)),
      findPattern endMarker (imageExtractGo data ((data.length + 3) / 4) 0 []) = none →
      imageDecode decF data pw = none) ∧
    (∀ (decF : DecryptFn) (p : List Nat), (∀ c, decF c p = none) →
      ∀ data, imageDecode decF data (some p) = none) ∧
    (∀ (decF : DecryptFn) (hashF : HashFn) (pw : Option (List Nat)),
      imageDecodeFile decF none pw = none ∧ audioDecodeFile decF hashF none pw = none ∧
      videoDecodeFile decF hashF none pw = none) := by
  refine ⟨?_, ?_, ?_, ?_, ?_, ?_, ?_, fun _ _ _ => ⟨rfl, rfl, rfl⟩⟩
  · intro decF stego pw hz
    simp [textDecode, hz]
  · intro decF stego pw hf
    simp only [textDecode]
    split_ifs with hz
    · rfl
    · rw [hf]
  · intro decF p h stego
    simp only [textDecode]
    split_ifs with hz
    · rfl
    · cases hfp : findPattern endMarker (zwToBits (stego.filter (fun c => isZW c))) with
      | none => rfl
      | some e => simp [finishCipher_none h]
  · intro decF hashF p h samples
    exact audioGo_none (finishCipher_none h) samples _ []
  · intro decF hashF p h frames
    simp only [videoDecode]
    exact videoDecGo_none (finishCipher_none h) _ frames 0 []
  · intro decF data pw hf
    simp only [imageDecode]
    rw [hf]
  · intro decF p h data
    simp only [imageDecode]
    cases hfp : findPattern endMarker (imageExtractGo data ((data.length + 3) / 4) 0 []) with
    | none => rfl
    | some e => simp [finishCipher_none h]

/-- Witness for C7 with an always-failing cipher adapter and small
concrete carriers, covering all four codecs and the collaborator
boundary. -/
theorem c7_decode_notfound_boundary_witness :
    textDecode (fun _ _ => none) [65, 66] none = none ∧
    textDecode (fun _ _ => none) [0x200B, 0x200C] (some [1]) = none ∧
    audioDecode (fun _ _ => none) (fun p => p) [0, 1, 2, 3] (some [1]) = none ∧
    videoDecode (fun _ _ => none) (fun p => p) [[0, 0, 0, 0]] (some [1]) = none ∧
    imageDecode (fun _ _ => none) [0, 9, 9, 9] none = none ∧
    imageDecode (fun _ _ => none) [1, 9, 9, 9] (some [1]) = none ∧
    imageDecodeFile (fun _ _ => none) none none = none :=
  ⟨c7_decode_notfound_boundary.1 (fun _ _ => none) [65, 66] none (by decide),
   c7_decode_notfound_boundary.2.2.1 (fun _ _ => none) [1] (fun _ => rfl) [0x200B, 0x200C],
   c7_decode_notfound_boundary.2.2.2.1 (fun _ _ => none) (fun p => p) [1] (fun _ => rfl)
     [0, 1, 2, 3],
   c7_decode_notfound_boundary.2.2.2.2.1 (fun _ _ => none) (fun p => p) [1] (fun _ => rfl)
     [[0, 0, 0, 0]],
   c7_decode_notfound_boundary.2.2.2.2.2.1 (fun _ _ => none) [0, 9, 9, 9] none (by decide),
   c7_decode_notfound_boundary.2.2.2.2.2.2.1 (fun _ _ => none) [1] (fun _ => rfl)
     [1, 9, 9, 9],
   (c7_decode_notfound_boundary.2.2.2.2.2.2.2 (fun _ _ => none) (fun p => p) none).1⟩

/-- C8: in the video codec the per-frame pixel selection of encode and
decode agree. The generator's output for a smaller count is the tail of
its output for a larger count (the first iterations of the partial
Fisher-Yates shuffle settle the trailing array positions), so the
encoder's `min(ceil(pixels * 0.3), remaining)` indices for the frame
seed `seed + ':' + k` are exactly the trailing entries of the decoder's
`ceil(pixels * 0.3)` indices for the same seed; the selection is
pairwise distinct; and the blue-channel embedding touches no byte
outside `4 * pixel + 2` for selected pixels. -/
theorem c8_video_frame_selection :
    (∀ (st n a b : Nat), a ≤ b → b ≤ n →
      shuffledSlice st n a = (shuffledSlice st n b).drop (b - a)) ∧
    (∀ (seed : List Nat) (k pixels rem : Nat),
      shuffledSlice (seedState (frameSeedChars seed k)) pixels (min (ceil3Div10 pixels) rem)
        = (shuffledSlice (seedState (frameSeedChars seed k)) pixels
            (ceil3Div10 pixels)).drop
            (ceil3Div10 pixels - min (ceil3Div10 pixels) rem)) ∧
    (∀ (seed : List Nat) (k pixels : Nat),
      (shuffledSlice (seedState (frameSeedChars seed k)) pixels (ceil3Div10 pixels)).Nodup) ∧
    (∀ (frame : List Nat) (idxs : List Nat) (bits : List Bool) (pos : Nat),
      (∀ q ∈ idxs, pos ≠ 4 * q + 2) →
      (embedBlue frame idxs bits).getD pos 0 = frame.getD pos 0) := by
  have hceil : ∀ pixels : Nat, ceil3Div10 pixels ≤ pixels := by
    intro pixels
    unfold ceil3Div10
    omega
  refine ⟨?_, ?_, ?_, ?_⟩
  · intro st n a b hab hbn
    exact shuffledSlice_suffix st n a b hab hbn
  · intro seed k pixels rem
    exact shuffledSlice_suffix _ pixels _ _ (Nat.min_le_left _ _) (hceil pixels)
  · intro seed k pixels
    exact shuffledSlice_nodup _ _ _
  · intro frame idxs
    induction idxs generalizing frame with
    | nil => intro bits pos _; rfl
    | cons q qs ih =>
        intro bits pos hpos
        cases bits with
        | nil => rfl
        | cons b bs =>
            have hstep : embedBlue frame (q :: qs) (b :: bs)
                = embedBlue (frame.set (4 * q + 2)
                    (2 * (frame.getD (4 * q + 2) 0 / 2) + b.toNat)) qs bs := by
              simp [embedBlue]
            rw [hstep, ih _ bs pos (fun r hr => hpos r (by simp [hr]))]
            have hne : 4 * q + 2 ≠ pos := fun hfe => (hpos q (by simp)) hfe.symm
            simp [List.getD_eq_getElem?_getD, List.getElem?_set_ne hne]

/-- Witness for C8 at a concrete seed, frame size and position. -/
theorem c8_video_frame_selection_witness :
    shuffledSlice (seedState (frameSeedChars [1] 0)) 10 2
      = (shuffledSlice (seedState (frameSeedChars [1] 0)) 10 5).drop 3 ∧
    (embedBlue [9, 8, 7, 6] [0] [true]).getD 0 0 = 9 := by
  constructor
  · exact c8_video_frame_selection.1 (seedState (frameSeedChars [1] 0)) 10 2 5
      (by decide) (by decide)
  · exact (c8_video_frame_selection.2.2.2 [9, 8, 7, 6] [0] [true] 0 (by decide)).trans
      (by decide)

set_option maxHeartbeats 8000000 in
theorem videoEncode_badFrames9_eq :
    (videoEncodeRun (fun m _ => m) (fun p => p) badFrames9 [] none).2
      = encodedBadFrames9 := by
  decide

set_option maxHeartbeats 8000000 in
theorem videoDecode_encodedBadFrames9 :
    videoDecode (fun c _ => some c) (fun p => p) encodedBadFrames9 none = none := by
  decide

/-- C10 (counterexample): the claim's final clause — without a password
decoding an embedded empty message returns the empty string — fails for
the video codec. On nine all-ones 10x10 frames the empty message is
exactly within the 0-byte capacity and encode succeeds, but decode
regenerates 30 indices for the last frame where encode wrote only 24
bits, so 6 junk ones land inside the 32-bit length field: the decoder
reads length 192, finds the payload truncated and returns null, not the
empty string. -/
theorem c10_video_empty_message_counterexample :
    (videoEncodeRun (fun m _ => m) (fun p => p) badFrames9 [] none).1 = none ∧
    videoDecode (fun c _ => some c) (fun p => p)
      (videoEncodeRun (fun m _ => m) (fun p => p) badFrames9 [] none).2 none = none ∧
    (none : Option (List Nat)) ≠ some [] := by
  refine ⟨by decide, ?_, by decide⟩
  rw [videoEncode_badFrames9_eq]
  exact videoDecode_encodedBadFrames9

/-- C10 (amended): every codec's decode computes its password result as
`decryptedMessage || null`, so under a cipher adapter whose decryption
with password `p` yields at most the empty string (the contract
instance for an encrypted empty message: the true ciphertext decrypts
to the empty string, everything else fails closed), decode with `p`
returns null for every carrier of all four codecs — in particular
`decode(encode(carrier, '', p), p)` is NotFound, so the empty message
encoded behind a password is never recoverable. Without a password an
embedded empty message decodes to the empty string for the text codec
(clean cover of at least 8 characters); by the counterexample this does
not extend to every codec. -/
theorem c10_empty_message_epilogue :
    (∀ (decF : DecryptFn) (p : List Nat),
      (∀ c, decF c p = none ∨ decF c p = some []) →
      (∀ stego, textDecode decF stego (some p) = none) ∧
      (∀ data, imageDecode decF data (some p) = none) ∧
      (∀ (hashF : HashFn) (samples : List Nat),
        audioDecode decF hashF samples (some p) = none) ∧
      (∀ (hashF : HashFn) (frames : List (List Nat)),
        videoDecode decF hashF frames (some p) = none)) ∧
    (∀ (encF : EncryptFn) (decF : DecryptFn) (cover : List Nat),
      (∀ c ∈ cover, isZW c = false) → 8 ≤ cover.length →
      textDecode decF (textEncode encF cover [] none) none = some []) := by
  constructor
  · intro decF p hdec
    have hfc : ∀ d, finishCipher decF (some p) d = none := finishCipher_degenerate hdec
    refine ⟨?_, ?_, ?_, ?_⟩
    · intro stego
      simp only [textDecode]
      split_ifs with hz
      · rfl
      · cases hfp : findPattern endMarker (zwToBits (stego.filter (fun c => isZW c))) with
        | none => rfl
        | some e => simp [hfc]
    · intro data
      simp only [imageDecode]
      cases hfp : findPattern endMarker
          (imageExtractGo data ((data.length + 3) / 4) 0 []) with
      | none => rfl
      | some e => simp [hfc]
    · intro hashF samples
      exact audioGo_none hfc samples _ []
    · intro hashF frames
      simp only [videoDecode]
      exact videoDecGo_none hfc _ frames 0 []
  · intro encF decF cover hclean hlen
    have henc : textEncode encF cover [] none = textEmbed cover endMarker := rfl
    rw [henc]
    have hfilter : (textEmbed cover endMarker).filter (fun c => isZW c)
        = zwList endMarker := by
      rw [textEmbed_filter cover endMarker hclean]
      congr 1
      refine List.take_of_length_le ?_
      simp only [endMarker, List.length_append, List.length_replicate, List.length_cons,
        List.length_nil]
      omega
    simp only [textDecode, hfilter]
    rfl

/-- Witness for the amended C10: the degenerate adapter
`decrypt = ''` forces null for all four codecs on concrete carriers,
and a concrete eight-character cover round-trips the embedded empty
message without a password. -/
theorem c10_empty_message_epilogue_witness :
    textDecode (fun _ _ => some []) (textEncode (fun m _ => m ++ [88])
      [97, 98, 99, 100, 101, 102, 103, 104] [] (some [1])) (some [1]) = none ∧
    imageDecode (fun _ _ => some []) [1, 9, 9, 9] (some [1]) = none ∧
    audioDecode (fun _ _ => some []) (fun p => p) [0, 1, 2, 3] (some [1]) = none ∧
    videoDecode (fun _ _ => some []) (fun p => p) [[0, 0, 0, 0]] (some [1]) = none ∧
    textDecode (fun _ _ => some []) (textEncode (fun m _ => m ++ [88])
      [97, 98, 99, 100, 101, 102, 103, 104] [] none) none = some [] := by
  have h := c10_empty_message_epilogue.1 (fun _ _ => some []) [1] (fun _ => Or.inr rfl)
  exact ⟨h.1 _, h.2.1 [1, 9, 9, 9], h.2.2.1 (fun p => p) [0, 1, 2, 3],
    h.2.2.2 (fun p => p) [[0, 0, 0, 0]],
    c10_empty_message_epilogue.2 (fun m _ => m ++ [88]) (fun _ _ => some [])
      [97, 98, 99, 100, 101, 102, 103, 104] (by decide) (by decide)⟩

/-! ### The video round-trip failure (C1, C2) -/

set_option maxHeartbeats 8000000 in
theorem videoEncode_badFrames_eq :
    (videoEncodeRun (fun m _ => m) (fun p => p) badFrames msgA none).2
      = encodedBadFrames := by
  decide

set_option maxHeartbeats 8000000 in
theorem videoDecode_encodedBadFrames :
    videoDecode (fun c _ => some c) (fun p => p) encodedBadFrames none = some [124] := by
  decide

set_option maxHeartbeats 8000000 in
theorem videoEncode_badFramesPw_eq :
    (videoEncodeRun (fun m _ => m) (fun p => p) badFrames msgA (some pw1)).2
      = encodedBadFramesPw := by
  decide

set_option maxHeartbeats 8000000 in
theorem videoDecode_encodedBadFramesPw :
    videoDecode (fun c _ => some c) (fun p => p) encodedBadFramesPw (some pw1)
      = some [124] := by
  decide

/-- C1 evaluated at a failing input: the one-byte message `'A'` is
within the video capacity of ten 10x10 frames (capacity 1 byte), encode
succeeds, yet decoding the encoded frames without a password returns
`'|'` (byte 124), not `'A'`. The decoder reads `ceil(pixels * 0.3) = 30`
indices from every frame while the encoder wrote only 18 bits into the
last frame, so 12 unwritten blue-channel LSBs are spliced into the
redundant stream ahead of the payload tail. The cipher adapter and hash
are irrelevant without a password and instantiated with identities. -/
theorem c1_video_roundtrip_bug :
    (msgA.length : Int)
      ≤ videoCalculateCapacity (badFrames.length * ((badFrames.headD []).length / 4)) ∧
    (videoEncodeRun (fun m _ => m) (fun p => p) badFrames msgA none).1 = none ∧
    videoDecode (fun c _ => some c) (fun p => p)
      (videoEncodeRun (fun m _ => m) (fun p => p) badFrames msgA none).2 none
      = some [124] ∧
    ([124] : List Nat) ≠ msgA := by
  refine ⟨by decide, by decide, ?_, by decide⟩
  rw [videoEncode_badFrames_eq]
  exact videoDecode_encodedBadFrames

/-- C2 evaluated at a failing input: with the toy cipher adapter whose
decrypt inverts its encrypt (first conjunct states the contract
instance) and the identity hash, encoding `'A'` into the same ten
frames behind the password `'pw'` succeeds, yet decoding with the same
correct password returns `'|'` (byte 124), not `'A'` — the same
last-frame index mismatch corrupts the payload before decryption is
ever reached. -/
theorem c2_password_roundtrip_bug :
    (∀ m p : List Nat,
      (fun c _ => some c : DecryptFn) ((fun m1 _ => m1 : EncryptFn) m p) p = some m) ∧
    (videoEncodeRun (fun m1 _ => m1) (fun p => p) badFrames msgA (some pw1)).1 = none ∧
    videoDecode (fun c _ => some c) (fun p => p)
      (videoEncodeRun (fun m1 _ => m1) (fun p => p) badFrames msgA (some pw1)).2 (some pw1)
      = some [124] ∧
    ([124] : List Nat) ≠ msgA := by
  refine ⟨fun m p => rfl, by decide, ?_, by decide⟩
  rw [videoEncode_badFramesPw_eq]
  exact videoDecode_encodedBadFramesPw

end StealthStream
